import Mathlib

/-!
# Verification of the PY-SpeedTest data layer

Shallow embedding of `supabase_manager.py` (class `SupabaseManager`) and
`rag_manager.py` (class `MistralRAGAnalyzer`), together with theorems that
settle the specification claims about them.

Conventions of the embedding:
* Python strings are `List Char` (`Str` below); Python string methods
  (`strip`, `lower`, `split`, `replace`, `startswith`, substring `in`)
  are modelled by executable functions defined here.
* Python numbers are `ℚ`.  A Python value that may be either a string or a
  number is `PyVal`; Python dictionaries with string keys are association
  lists (`Dict`).  Rendering of numbers inside f-strings is modelled by an
  executable decimal renderer (`ratRepr`); the exact digit strings Python
  produces for floats are outside the scope of the claims.
* Code that can raise returns `Except`; code whose `except` handlers always
  return normally is total.
* The Supabase client is modelled by a `Backend` state: `tableOk` /
  `chatOk` say whether calls touching the two tables succeed, `rpcTests` /
  `rpcChats` are the optional server-side vector-search functions (`none`
  means the RPC call raises), and `tests` / `chats` hold the stored rows in
  ascending timestamp order (the order the database would return for an
  ascending sort; descending sorts are modelled by `reverse`).
-/

abbrev Str := List Char

def S (s : String) : Str := s.data

/-- Python `str.isspace` on the whitespace characters relevant here
(`str.strip()` removes exactly the whitespace at both ends). -/
def isPySpace (c : Char) : Bool :=
  c = ' ' || c = '\t' || c = '\n' || c = '\r' || c = '\x0b' || c = '\x0c'

/-- Leading-whitespace removal (`lstrip`). -/
def trimLeft (s : Str) : Str := s.dropWhile isPySpace

/-- Trailing-whitespace removal (`rstrip`). -/
def trimRight (s : Str) : Str := (s.reverse.dropWhile isPySpace).reverse

/-- Python `str.strip()`. -/
def pyStrip (s : Str) : Str := trimRight (trimLeft s)

/-- Python `str.lower()` (the source only lowercases ASCII text). -/
def toLowerStr (s : Str) : Str := s.map Char.toLower

/-- Python `sep.split` for a one-character separator: splits at every
occurrence, keeping empty chunks, so the result is always non-empty. -/
def splitOnChar (c : Char) : Str → List Str
  | [] => [[]]
  | x :: xs =>
    match splitOnChar c xs with
    | [] => [[]]
    | h :: t => if x = c then [] :: h :: t else (x :: h) :: t

/-- Python substring test `pat in s`. -/
def isSubB (pat : Str) : Str → Bool
  | [] => pat.isEmpty
  | x :: xs => pat.isPrefixOf (x :: xs) || isSubB pat xs

/-- A Python value appearing in a dict: a number (`int`/`float`) or a string. -/
inductive PyVal where
  | num (q : ℚ)
  | str (s : Str)
deriving DecidableEq

/-- Python dict with string keys, as an association list. -/
abbrev Dict := List (Str × PyVal)

/-- Python `d.get(k, dflt)`: the stored value when the key is present
(even if falsy), otherwise the default. -/
def dictGet (d : Dict) (k : Str) (dflt : PyVal) : PyVal :=
  match d with
  | [] => dflt
  | (k', v) :: rest => if k' = k then v else dictGet rest k dflt

/-- Decimal digits of a natural number (used to model how numbers are
rendered inside f-strings). -/
def natRepr (n : Nat) : Str := Nat.toDigits 10 n

def intRepr (i : Int) : Str :=
  if i < 0 then '-' :: natRepr i.natAbs else natRepr i.natAbs

/-- Rendering of a model number inside an f-string.  Integral values print
as integers; other rationals print as `num/den`.  (The exact digit strings
CPython produces for floats are an I/O detail outside the claims.) -/
def ratRepr (q : ℚ) : Str :=
  if q.den = 1 then intRepr q.num
  else intRepr q.num ++ S "/" ++ natRepr q.den

/-- Python `f"{v}"` on a dict value. -/
def pyRepr (v : PyVal) : Str :=
  match v with
  | .num q => ratRepr q
  | .str s => s

/-- Fixed-point rendering, modelling the `:.1f` / `:.2f` format specs
(rounding half away from zero; only reached on non-empty statistics). -/
def fmtFixed (prec : Nat) (q : ℚ) : Str :=
  let m : Int := Rat.floor (q * (10 : ℚ) ^ prec + 1 / 2)
  let ds0 := natRepr m.natAbs
  let ds := if ds0.length < prec + 1 then
      List.replicate (prec + 1 - ds0.length) '0' ++ ds0 else ds0
  let sign : Str := if m < 0 then ['-'] else []
  sign ++ ds.take (ds.length - prec) ++ '.' :: ds.drop (ds.length - prec)

/-- `:.1f` / `:.2f` applied to a dict value (the source only formats the
numeric statistics values this way). -/
def fmtVal (prec : Nat) (v : PyVal) : Str :=
  match v with
  | .num q => fmtFixed prec q
  | .str s => s

/-- Digit test for the simple decimal parser below. -/
def isDigitCh (c : Char) : Bool := '0' ≤ c && c ≤ '9'

def digitVal (c : Char) : Nat := c.toNat - '0'.toNat

def digitsToNat (ds : Str) : Nat := ds.foldl (fun a c => a * 10 + digitVal c) 0

/-- Parse an optionally signed decimal literal, as accepted by Python
`float()` (surrounding whitespace already stripped).  Returns `none` for
strings `float()` rejects, e.g. `"abc"`. -/
def parseDec (s : Str) : Option ℚ :=
  let (sgn, body) : ℚ × Str :=
    match s with
    | '-' :: rest => (-1, rest)
    | '+' :: rest => (1, rest)
    | _ => (1, s)
  let intPart := body.takeWhile isDigitCh
  let rest := body.drop intPart.length
  match rest with
  | [] => if intPart = [] then none else some (sgn * digitsToNat intPart)
  | '.' :: frac =>
    if frac.all isDigitCh ∧ (intPart ≠ [] ∨ frac ≠ []) then
      some (sgn * ((digitsToNat intPart : ℚ) +
        (digitsToNat frac : ℚ) / (10 : ℚ) ^ frac.length))
    else none
  | _ => none

/-- Python `float(v)`: numbers convert to themselves, strings are parsed
as decimal literals (raising `ValueError`, modelled as `Except.error`,
when unparseable). -/
def pyFloat (v : PyVal) : Except Str ℚ :=
  match v with
  | .num q => .ok q
  | .str s =>
    match parseDec (pyStrip s) with
    | some q => .ok q
    | none => .error (S "could not convert string to float")

/-! ## `supabase_manager.py` — class `SupabaseManager` -/

/-- A row of the `speedtest_history` table, as built by
`save_test_result`.  String-or-anything columns keep the `PyVal` that was
stored; the numeric columns have been through `float()`. -/
structure TestRow where
  timestamp : PyVal
  ping_ms : ℚ
  jitter_ms : ℚ
  download_mbps : ℚ
  upload_mbps : ℚ
  server_name : Str
  server_country : Str
  isp : PyVal
  client_ip : PyVal
  embedding : Option (List ℚ)
deriving DecidableEq

/-- A row of the `chat_history` table, as built by `save_chat_message`.
`none` in an optional column means the inserted dict had no such key. -/
structure ChatRow where
  user_ip : Str
  user_message : Str
  bot_response : Str
  timestamp : Str
  session_id : Option Str
  test_context : Option Str
  embedding : Option (List ℚ)
deriving DecidableEq

/-- The Supabase client's observable behaviour.  `tableOk` / `chatOk`:
whether calls touching `speedtest_history` / `chat_history` succeed
(`false` = every such call raises, e.g. unreachable or misconfigured
backend).  `rpcTests` / `rpcChats`: the server-side vector-search
functions; `none` means calling the RPC raises (function unavailable).
Row lists are kept in ascending `timestamp` order. -/
structure Backend where
  tableOk : Bool
  chatOk : Bool
  is_connected : Bool
  tests : List TestRow
  chats : List ChatRow
  rpcTests : Option (List ℚ → Nat → List TestRow)
  rpcChats : Option (List ℚ → ℚ → Nat → List ChatRow)

/-- `connect`: create the client and probe `speedtest_history`; on any
exception set `is_connected = False` and return `False`. -/
def connect (b : Backend) : Bool × Backend :=
  if b.tableOk then (true, { b with is_connected := true })
  else (false, { b with is_connected := false })

/-- The server-info parsing block of `save_test_result` (lines 121-128):
`server_info.split('(')`, name = `parts[0].strip()`, country =
`parts[1].replace(')', '').strip()` when both `'('` and `')'` occur. -/
def parseServer (server_info : Str) : Str × Str :=
  if '(' ∈ server_info ∧ ')' ∈ server_info then
    let parts := splitOnChar '(' server_info
    (pyStrip parts.headI,
     pyStrip ((parts.tail.headI).filter (fun c => c ≠ ')')))
  else (server_info, [])

/-- The `data` dict built by `save_test_result` before the insert
(`Except.error` models the `float()` / `in` exceptions the surrounding
`try` catches; `now` stands for `datetime.now().isoformat()`). -/
def test_insert_row (test_data : Dict) (embedding : Option (List ℚ))
    (now : Str) : Except Str TestRow :=
  match dictGet test_data (S "server") (.str (S "Unknown")) with
  | .num _ => .error (S "argument of type float is not iterable")
  | .str server_info =>
    let nc := parseServer server_info
    match pyFloat (dictGet test_data (S "ping") (.num 0)) with
    | .error e => .error e
    | .ok ping =>
    match pyFloat (dictGet test_data (S "jitter") (.num 0)) with
    | .error e => .error e
    | .ok jitter =>
    match pyFloat (dictGet test_data (S "download") (.num 0)) with
    | .error e => .error e
    | .ok download =>
    match pyFloat (dictGet test_data (S "upload") (.num 0)) with
    | .error e => .error e
    | .ok upload =>
      .ok { timestamp := dictGet test_data (S "timestamp") (.str now)
            ping_ms := ping
            jitter_ms := jitter
            download_mbps := download
            upload_mbps := upload
            server_name := nc.1
            server_country := nc.2
            isp := dictGet test_data (S "isp") (.str (S "Unknown"))
            client_ip := dictGet test_data (S "ip") (.str (S "Unknown"))
            embedding := match embedding with
              | some l => if l = [] then none else some l
              | none => none }

/-- `save_test_result`: build the row, insert it; any exception is caught
and `False` returned. -/
def save_test_result (b : Backend) (test_data : Dict)
    (embedding : Option (List ℚ)) (now : Str) : Bool × Backend :=
  match test_insert_row test_data embedding now with
  | .error _ => (false, b)
  | .ok r =>
    if b.tableOk then (true, { b with tests := b.tests ++ [r] })
    else (false, b)

/-- `get_recent_tests`: select all, order by timestamp descending, limit;
`[]` on any exception. -/
def get_recent_tests (b : Backend) (limit : Nat) : List TestRow :=
  if b.tableOk then (b.tests.reverse).take limit else []

/-- `query_similar_tests`: call the `match_speedtest_history` RPC; if it
raises, fall back to `get_recent_tests(limit)`. -/
def query_similar_tests (b : Backend) (embedding : List ℚ) (limit : Nat) :
    List TestRow :=
  match b.rpcTests with
  | some f => f embedding limit
  | none => get_recent_tests b limit

/-- `get_statistics`: select the four numeric columns and aggregate; the
zero dict when the table is empty, `{}` (the empty dict) on exception. -/
def get_statistics (b : Backend) : Dict :=
  if b.tableOk then
    match b.tests with
    | [] =>
      [(S "count", .num 0), (S "avg_ping", .num 0), (S "avg_jitter", .num 0),
       (S "avg_download", .num 0), (S "avg_upload", .num 0)]
    | d :: ds =>
      let data := d :: ds
      let count : ℚ := data.length
      [(S "count", .num count),
       (S "avg_ping", .num ((data.map (·.ping_ms)).sum / count)),
       (S "avg_jitter", .num ((data.map (·.jitter_ms)).sum / count)),
       (S "avg_download", .num ((data.map (·.download_mbps)).sum / count)),
       (S "avg_upload", .num ((data.map (·.upload_mbps)).sum / count)),
       (S "max_download", .num (ds.foldl (fun m r => max m r.download_mbps)
          d.download_mbps)),
       (S "max_upload", .num (ds.foldl (fun m r => max m r.upload_mbps)
          d.upload_mbps)),
       (S "min_ping", .num (ds.foldl (fun m r => min m r.ping_ms)
          d.ping_ms))]
  else []

/-- `get_total_count`: exact count, `0` on exception (and `0` when the
count itself is `0`, per `result.count if result.count else 0`). -/
def get_total_count (b : Backend) : Nat :=
  if b.tableOk then
    (if b.tests.length = 0 then 0 else b.tests.length)
  else 0

/-- A minimal `json.dumps` for the `test_context` dict (only its presence
matters to the claims; `\x7b`/`\x7d` are the brace characters). -/
def jsonVal (v : PyVal) : Str :=
  match v with
  | .num q => ratRepr q
  | .str s => '"' :: s ++ ['"']

def jsonDumps (d : Dict) : Str :=
  Char.ofNat 123 ::
    (List.intercalate (S ", ")
      (d.map (fun kv => '"' :: kv.1 ++ S "\": " ++ jsonVal kv.2)))
    ++ [Char.ofNat 125]

/-- The `data` dict built by `save_chat_message`: optional fields are
added only when the Python value is truthy, so `session_id=""`,
`test_context={}` and `embedding=[]` all leave their key out. -/
def chat_insert_row (user_ip user_message bot_response : Str)
    (session_id : Option Str) (test_context : Option Dict)
    (embedding : Option (List ℚ)) (now : Str) : ChatRow :=
  { user_ip := user_ip
    user_message := user_message
    bot_response := bot_response
    timestamp := now
    session_id := match session_id with
      | some s => if s = [] then none else some s
      | none => none
    test_context := match test_context with
      | some d => if d = [] then none else some (jsonDumps d)
      | none => none
    embedding := match embedding with
      | some l => if l = [] then none else some l
      | none => none }

/-- `save_chat_message`: insert into `chat_history`; `False` on any
exception. -/
def save_chat_message (b : Backend) (user_ip user_message bot_response : Str)
    (session_id : Option Str) (test_context : Option Dict)
    (embedding : Option (List ℚ)) (now : Str) : Bool × Backend :=
  if b.chatOk then
    (true, { b with chats := b.chats ++
      [chat_insert_row user_ip user_message bot_response session_id
        test_context embedding now] })
  else (false, b)

/-- `get_user_chat_history`: rows of this user, newest first, limited;
`[]` on any exception. -/
def get_user_chat_history (b : Backend) (user_ip : Str) (limit : Nat) :
    List ChatRow :=
  if b.chatOk then
    ((b.chats.filter (fun c => c.user_ip = user_ip)).reverse).take limit
  else []

/-- `get_all_chat_history`: all rows, newest first, limited; `[]` on any
exception. -/
def get_all_chat_history (b : Backend) (limit : Nat) : List ChatRow :=
  if b.chatOk then (b.chats.reverse).take limit else []

/-- `search_similar_chats`: call the `match_chat_history` RPC; `[]` when
it raises. -/
def search_similar_chats (b : Backend) (query_embedding : List ℚ)
    (match_threshold : ℚ) (limit : Nat) : List ChatRow :=
  match b.rpcChats with
  | some f => f query_embedding match_threshold limit
  | none => []

/-- `get_chat_statistics`: chat count and distinct users; `{}` on any
exception. -/
def get_chat_statistics (b : Backend) : Dict :=
  if b.chatOk then
    match b.chats with
    | [] => [(S "total_chats", .num 0), (S "unique_users", .num 0)]
    | c :: cs =>
      [(S "total_chats", .num ((c :: cs).length : ℚ)),
       (S "unique_users", .num ((((c :: cs).map (·.user_ip)).dedup).length : ℚ))]
  else []

/-- A CSV row as produced by `csv.DictReader` / consumed by `csv.writer`:
a map from column header to cell value.  Cells keep their value; the
text-level serialisation the `csv` module performs is assumed faithful
("modulo formatting"). -/
abbrev CsvRow := Dict

/-- The export image of one stored row in `sync_to_csv`, including the
`"Name (Country)"` recombination. -/
def csvOfRow (r : TestRow) : CsvRow :=
  let server : Str :=
    if r.server_country ≠ [] then
      r.server_name ++ S " (" ++ r.server_country ++ S ")"
    else r.server_name
  [(S "Waktu", r.timestamp),
   (S "Ping (ms)", .num r.ping_ms),
   (S "Jitter (ms)", .num r.jitter_ms),
   (S "Download (Mbps)", .num r.download_mbps),
   (S "Upload (Mbps)", .num r.upload_mbps),
   (S "Server", .str server),
   (S "ISP", r.isp)]

/-- `sync_to_csv`: select everything ascending and write the CSV.
Returns the success flag and the written file (`none` when nothing was
written: exception, or no data). -/
def sync_to_csv (b : Backend) : Bool × Option (List CsvRow) :=
  if b.tableOk then
    if b.tests = [] then (false, none)
    else (true, some (b.tests.map csvOfRow))
  else (false, none)

/-- `SupabaseManager.create_test_description` (the CSV-migration helper;
pure f-string, no numeric conversion). -/
def sm_create_test_description (test_data : Dict) : Str :=
  S "Network Speed Test Results:\n- Date: " ++
    pyRepr (dictGet test_data (S "timestamp") (.str (S "Unknown"))) ++
  S "\n- ISP: " ++ pyRepr (dictGet test_data (S "isp") (.str (S "Unknown"))) ++
  S "\n- Server: " ++ pyRepr (dictGet test_data (S "server") (.str (S "Unknown"))) ++
  S "\n- Latency: " ++ pyRepr (dictGet test_data (S "ping") (.num 0)) ++
  S "ms (Jitter: " ++ pyRepr (dictGet test_data (S "jitter") (.num 0)) ++
  S "ms)\n- Download Speed: " ++ pyRepr (dictGet test_data (S "download") (.num 0)) ++
  S " Mbps\n- Upload Speed: " ++ pyRepr (dictGet test_data (S "upload") (.num 0)) ++
  S " Mbps"

/-- One iteration of the row loop in `migrate_csv_to_supabase`: build
`test_data` from the CSV row, optionally generate an embedding (failures
only print), save, and count. -/
def migrateRow (embGen : Option (Str → Except Str (List ℚ))) (now : Str)
    (st : (Nat × Nat) × Backend) (row : CsvRow) : (Nat × Nat) × Backend :=
  let succ := st.1.1
  let tot := st.1.2 + 1
  let b := st.2
  let test_data : Dict :=
    [(S "timestamp", dictGet row (S "Waktu") (.str [])),
     (S "ping", dictGet row (S "Ping (ms)") (.num 0)),
     (S "jitter", dictGet row (S "Jitter (ms)") (.num 0)),
     (S "download", dictGet row (S "Download (Mbps)") (.num 0)),
     (S "upload", dictGet row (S "Upload (Mbps)") (.num 0)),
     (S "server", dictGet row (S "Server") (.str (S "Unknown"))),
     (S "isp", dictGet row (S "ISP") (.str (S "Unknown")))]
  let embedding : Option (List ℚ) :=
    match embGen with
    | none => none
    | some g =>
      match g (sm_create_test_description test_data) with
      | .ok e => some e
      | .error _ => none
  match save_test_result b test_data embedding now with
  | (true, b2) => ((succ + 1, tot), b2)
  | (false, b2) => ((succ, tot), b2)

/-- `migrate_csv_to_supabase`: `(0, 0)` when the file is missing
(`file = none`), otherwise fold the row loop over the parsed rows and
return `(success_count, total_count)`. -/
def migrate_csv_to_supabase (b : Backend) (file : Option (List CsvRow))
    (embGen : Option (Str → Except Str (List ℚ))) (now : Str) :
    (Nat × Nat) × Backend :=
  match file with
  | none => ((0, 0), b)
  | some rows => rows.foldl (migrateRow embGen now) ((0, 0), b)

/-! ## `rag_manager.py` — class `MistralRAGAnalyzer`

The Mistral client is modelled by its two endpoints: `embClient` maps the
embedded text to the embedding vector (or raises) and `chatClient` maps
the prompt to the completion text (or raises). -/

/-- `_assess_quality` (lines 88-99): the first-match if/elif chain over
the four metrics. -/
def assess_quality (ping jitter download upload : ℚ) : Str :=
  if ping < 20 ∧ jitter < 5 ∧ download > 50 ∧ upload > 20 then S "Excellent"
  else if ping < 50 ∧ jitter < 10 ∧ download > 25 ∧ upload > 10 then S "Good"
  else if ping < 100 ∧ jitter < 20 ∧ download > 10 ∧ upload > 5 then S "Fair"
  else S "Poor"

/-- `MistralRAGAnalyzer.create_test_description`: `float()`-convert the
four metrics (can raise), assess, and format. -/
def create_test_description (test_data : Dict) : Except Str Str := do
  let ping ← pyFloat (dictGet test_data (S "ping") (.num 0))
  let jitter ← pyFloat (dictGet test_data (S "jitter") (.num 0))
  let download ← pyFloat (dictGet test_data (S "download") (.num 0))
  let upload ← pyFloat (dictGet test_data (S "upload") (.num 0))
  let quality := assess_quality ping jitter download upload
  .ok (S "Network Speed Test Results:\n- Date: " ++
    pyRepr (dictGet test_data (S "timestamp") (.str (S "Unknown"))) ++
    S "\n- ISP: " ++ pyRepr (dictGet test_data (S "isp") (.str (S "Unknown"))) ++
    S "\n- Server: " ++ pyRepr (dictGet test_data (S "server") (.str (S "Unknown"))) ++
    S "\n- Latency: " ++ ratRepr ping ++ S "ms (Jitter: " ++ ratRepr jitter ++
    S "ms)\n- Download Speed: " ++ ratRepr download ++
    S " Mbps\n- Upload Speed: " ++ ratRepr upload ++
    S " Mbps\n- Network Quality: " ++ quality)

/-- `generate_embedding`: `None` when unconfigured or on any API
exception, the vector otherwise. -/
def generate_embedding (is_configured : Bool)
    (embClient : Str → Except Str (List ℚ)) (text : Str) :
    Option (List ℚ) :=
  if is_configured then
    match embClient text with
    | .ok e => some e
    | .error _ => none
  else none

/-- `create_chat_embedding`: combine the two messages and embed them;
`None` when unconfigured or on error. -/
def create_chat_embedding (is_configured : Bool)
    (embClient : Str → Except Str (List ℚ)) (user_message bot_response : Str) :
    Option (List ℚ) :=
  if is_configured then
    generate_embedding is_configured embClient
      (S "User Question: " ++ user_message ++ S "\nBot Answer: " ++ bot_response)
  else none

/-- The five parsed sections of an AI response. -/
structure Sections where
  performance_assessment : Str
  trend_analysis : Str
  anomaly_detection : Str
  root_cause_analysis : Str
  recommendations : List Str
deriving DecidableEq

inductive Sec where
  | pa | ta | ad | rca | recs
deriving DecidableEq

def emptySections : Sections := ⟨[], [], [], [], []⟩

/-- The if/elif header-detection chain of `parse_ai_response`, applied to
`line.lower().strip()`. -/
def headerOf (line_lower : Str) : Option Sec :=
  if isSubB (S "penilaian performa") line_lower ||
     isSubB (S "performance assessment") line_lower then some .pa
  else if isSubB (S "analisis tren") line_lower ||
     isSubB (S "trend analysis") line_lower then some .ta
  else if isSubB (S "deteksi anomali") line_lower ||
     isSubB (S "anomaly detection") line_lower then some .ad
  else if isSubB (S "analisis penyebab") line_lower ||
     isSubB (S "root cause") line_lower then some .rca
  else if isSubB (S "rekomendasi") line_lower ||
     isSubB (S "recommendation") line_lower then some .recs
  else none

/-- The bullet/number markers of the `startswith` tuple in
`parse_ai_response` (line 320). -/
def recMarkers : List Str :=
  [S "-", S "•", S "*", S "1.", S "2.", S "3.", S "4.", S "5."]

def startsWithAny (pats : List Str) (s : Str) : Bool :=
  pats.any (fun p => p.isPrefixOf s)

def addContent (secs : Sections) (sec : Sec) (line : Str) : Sections :=
  match sec with
  | .pa => { secs with performance_assessment :=
      secs.performance_assessment ++ line ++ ['\n'] }
  | .ta => { secs with trend_analysis := secs.trend_analysis ++ line ++ ['\n'] }
  | .ad => { secs with anomaly_detection :=
      secs.anomaly_detection ++ line ++ ['\n'] }
  | .rca => { secs with root_cause_analysis :=
      secs.root_cause_analysis ++ line ++ ['\n'] }
  | .recs => secs

/-- One iteration of the line loop of `parse_ai_response`. -/
def parseStep (st : Option Sec × Sections) (line : Str) :
    Option Sec × Sections :=
  let line_lower := pyStrip (toLowerStr line)
  match headerOf line_lower with
  | some sec => (some sec, st.2)
  | none =>
    match st.1 with
    | none => st
    | some sec =>
      if pyStrip line ≠ [] then
        if sec = .recs then
          if startsWithAny recMarkers (pyStrip line) then
            (st.1, { st.2 with recommendations :=
              st.2.recommendations ++ [pyStrip line] })
          else st
        else (st.1, addContent st.2 sec line)
      else st

def stripSections (secs : Sections) : Sections :=
  { performance_assessment := pyStrip secs.performance_assessment
    trend_analysis := pyStrip secs.trend_analysis
    anomaly_detection := pyStrip secs.anomaly_detection
    root_cause_analysis := pyStrip secs.root_cause_analysis
    recommendations := secs.recommendations }

/-- `parse_ai_response` (lines 273-334): split into lines, run the
section loop, strip the four string-valued sections. -/
def parse_ai_response (response : Str) : Sections :=
  stripSections
    ((splitOnChar '\n' response).foldl parseStep (none, emptySections)).2

/-- Keys-to-dict view of a stored test row, as the Supabase client hands
rows back to `build_analysis_prompt`. -/
def rowDict (r : TestRow) : Dict :=
  [(S "timestamp", r.timestamp), (S "isp", r.isp),
   (S "server_name", .str r.server_name),
   (S "server_country", .str r.server_country),
   (S "ping_ms", .num r.ping_ms), (S "jitter_ms", .num r.jitter_ms),
   (S "download_mbps", .num r.download_mbps),
   (S "upload_mbps", .num r.upload_mbps)]

/-- The `CURRENT TEST RESULTS` f-string block. -/
def currentInfo (current_test : Dict) : Str :=
  S "\nCURRENT TEST RESULTS:\n- Timestamp: " ++
    pyRepr (dictGet current_test (S "timestamp") (.str (S "Unknown"))) ++
  S "\n- ISP: " ++ pyRepr (dictGet current_test (S "isp") (.str (S "Unknown"))) ++
  S "\n- Server: " ++ pyRepr (dictGet current_test (S "server") (.str (S "Unknown"))) ++
  S "\n- Ping: " ++ pyRepr (dictGet current_test (S "ping") (.num 0)) ++
  S "ms\n- Jitter: " ++ pyRepr (dictGet current_test (S "jitter") (.num 0)) ++
  S "ms\n- Download: " ++ pyRepr (dictGet current_test (S "download") (.num 0)) ++
  S " Mbps\n- Upload: " ++ pyRepr (dictGet current_test (S "upload") (.num 0)) ++
  S " Mbps\n"

/-- One `Test {i}` block of the similar-tests section. -/
def similarTestBlock (it : Nat × Dict) : Str :=
  S "\nTest " ++ natRepr it.1 ++ S ":\n- Date: " ++
    pyRepr (dictGet it.2 (S "timestamp") (.str (S "Unknown"))) ++
  S "\n- ISP: " ++ pyRepr (dictGet it.2 (S "isp") (.str (S "Unknown"))) ++
  S "\n- Server: " ++ pyRepr (dictGet it.2 (S "server_name") (.str (S "Unknown"))) ++
  S "\n- Ping: " ++ pyRepr (dictGet it.2 (S "ping_ms") (.num 0)) ++
  S "ms, Jitter: " ++ pyRepr (dictGet it.2 (S "jitter_ms") (.num 0)) ++
  S "ms\n- Download: " ++ pyRepr (dictGet it.2 (S "download_mbps") (.num 0)) ++
  S " Mbps, Upload: " ++ pyRepr (dictGet it.2 (S "upload_mbps") (.num 0)) ++
  S " Mbps\n"

/-- `SIMILAR HISTORICAL TESTS` section: enumerated blocks, or the
no-data sentence when the list is empty. -/
def similarInfo (similar_tests : List Dict) : Str :=
  S "\nSIMILAR HISTORICAL TESTS:\n" ++
  (if similar_tests ≠ [] then
    ((List.enumFrom 1 (similar_tests.take 5)).map similarTestBlock).flatten
  else S "No historical data available yet.\n")

/-- Truthiness of `stats.get("count", 0) > 0`.  (In Python a non-numeric
`count` would raise; the statistics dicts this code produces are always
numeric, so the comparison is modelled on the numeric case only.) -/
def countPositive (v : PyVal) : Bool :=
  match v with
  | .num q => decide (q > 0)
  | .str _ => false

/-- `STATISTICAL CONTEXT` section: the formatted aggregate block, or the
no-statistics sentence for an empty/zero-count dict. -/
def statsInfo (stats : Dict) : Str :=
  S "\nSTATISTICAL CONTEXT:\n" ++
  (if stats ≠ [] ∧ countPositive (dictGet stats (S "count") (.num 0)) then
    S "\n- Total Tests: " ++ pyRepr (dictGet stats (S "count") (.num 0)) ++
    S "\n- Average Ping: " ++ fmtVal 1 (dictGet stats (S "avg_ping") (.num 0)) ++
    S "ms\n- Average Jitter: " ++ fmtVal 1 (dictGet stats (S "avg_jitter") (.num 0)) ++
    S "ms\n- Average Download: " ++ fmtVal 2 (dictGet stats (S "avg_download") (.num 0)) ++
    S " Mbps\n- Average Upload: " ++ fmtVal 2 (dictGet stats (S "avg_upload") (.num 0)) ++
    S " Mbps\n- Best Download: " ++ fmtVal 2 (dictGet stats (S "max_download") (.num 0)) ++
    S " Mbps\n- Best Upload: " ++ fmtVal 2 (dictGet stats (S "max_upload") (.num 0)) ++
    S " Mbps\n- Best Ping: " ++ fmtVal 1 (dictGet stats (S "min_ping") (.num 0)) ++
    S "ms\n"
  else S "No historical statistics available yet.\n")

/-- The fixed Indonesian instruction block closing the analysis prompt. -/
def promptTail : Str :=
  S "\n\nBerikan analisis yang komprehensif dengan gaya bahasa yang santai dan mudah dipahami, seperti sedang berbicara dengan teman. Gunakan format berikut:\n\n1. **Penilaian Performa**: Beri rating kualitas internet saat ini (Sangat Bagus/Bagus/Cukup/Kurang Bagus) dan jelaskan alasannya dengan bahasa yang mudah dimengerti.\n\n2. **Analisis Tren**: Bandingkan hasil sekarang dengan data historis. Apakah internet makin cepat, makin lambat, atau stabil? Jelaskan dengan contoh konkret.\n\n3. **Deteksi Anomali**: Cari pola yang tidak biasa atau aneh dari hasil test ini dibanding biasanya. Misalnya ping tiba-tiba tinggi atau download speed turun drastis.\n\n4. **Analisis Penyebab**: Berdasarkan data yang ada, jelaskan kemungkinan penyebab performa saat ini. Contoh: \"Sepertinya jaringan lagi rame nih\" atau \"Koneksi ke server jauh jadi ping-nya tinggi\".\n\n5. **Rekomendasi**: Berikan 3-5 saran praktis yang bisa langsung dilakukan untuk meningkatkan kualitas internet. Gunakan bahasa sehari-hari yang gampang dipahami.\n\nPenting: Gunakan bahasa Indonesia yang natural, santai, dan mudah dipahami. Hindari istilah teknis yang terlalu rumit. Jika harus pakai istilah teknis, jelaskan artinya dengan bahasa sederhana."

/-- `build_analysis_prompt` (lines 193-271). -/
def build_analysis_prompt (current_test : Dict) (similar_tests : List Dict)
    (stats : Dict) : Str :=
  S "Kamu adalah seorang ahli analisis performa jaringan internet. Analisis hasil speedtest berikut dan berikan insight yang mudah dipahami dalam Bahasa Indonesia.\n\n" ++
  currentInfo current_test ++ S "\n" ++ similarInfo similar_tests ++ S "\n" ++
  statsInfo stats ++ promptTail

/-- Result dict of `analyze_test_results`: either the error shape
`(error, success=False)` or the success shape with all five payload
fields. -/
inductive AnalyzeResult where
  | failure (error : Str)
  | success (current_test : Dict) (similar_tests : List Dict)
      (statistics : Dict) (analysis : Sections) (raw_analysis : Str)

/-- `analyze_test_results` (lines 130-191): embed the current test, pull
context from Supabase when connected, complete, parse; every exception is
caught and turned into the error dict. -/
def analyze_test_results (is_configured : Bool)
    (embClient : Str → Except Str (List ℚ))
    (chatClient : Str → Except Str Str)
    (sm : Option Backend) (current_test : Dict) : AnalyzeResult :=
  if is_configured then
    match create_test_description current_test with
    | .error e => .failure e
    | .ok desc =>
      match generate_embedding is_configured embClient desc with
      | none => .failure (S "Failed to generate embedding")
      | some [] => .failure (S "Failed to generate embedding")
      | some (x :: xs) =>
        let emb := x :: xs
        let similar_tests := match sm with
          | some bk =>
            if bk.is_connected then (query_similar_tests bk emb 5).map rowDict
            else []
          | none => []
        let stats := match sm with
          | some bk => if bk.is_connected then get_statistics bk else []
          | none => []
        let prompt := build_analysis_prompt current_test similar_tests stats
        match chatClient prompt with
        | .error e => .failure e
        | .ok text =>
          .success current_test similar_tests stats (parse_ai_response text)
            text
  else .failure (S "Mistral AI API not configured")

/-- `generate_summary` (lines 336-368): placeholder when unconfigured,
completion text on success, fixed string on any API exception. -/
def generate_summary (is_configured : Bool)
    (chatClient : Str → Except Str Str) (test_data : Dict) : Str :=
  if is_configured then
    match chatClient
      (S "Provide a brief 2-3 sentence summary of this network speed test:\n\nPing: " ++
       pyRepr (dictGet test_data (S "ping") (.num 0)) ++
       S "ms\nJitter: " ++ pyRepr (dictGet test_data (S "jitter") (.num 0)) ++
       S "ms\nDownload: " ++ pyRepr (dictGet test_data (S "download") (.num 0)) ++
       S " Mbps\nUpload: " ++ pyRepr (dictGet test_data (S "upload") (.num 0)) ++
       S " Mbps\nISP: " ++ pyRepr (dictGet test_data (S "isp") (.str (S "Unknown"))) ++
       S "\n\nFocus on overall quality and any notable issues.") with
    | .ok t => t
    | .error _ => S "Error generating summary"
  else S "Mistral AI API not configured"

/-- Python comparison `v < c` for a raw dict value against a number
(`TypeError` for strings). -/
def pyLtQ (v : PyVal) (c : ℚ) : Except Str Bool :=
  match v with
  | .num q => .ok (decide (q < c))
  | .str _ => .error (S "not supported between instances of str and int")

/-- One `and`-chain of `_assess_quality` as evaluated by
`generate_quick_summary`, where `jitter` is the raw dict value: Python
short-circuits, so `jitter` is only compared when the ping test holds. -/
def qualityBranch (pingOk : Bool) (jitter : PyVal) (jc : ℚ) (rest : Bool) :
    Except Str Bool :=
  if pingOk then
    match pyLtQ jitter jc with
    | .error e => .error e
    | .ok jb => .ok (jb && rest)
  else .ok false

/-- `_assess_quality(ping, test_data.get("jitter", 0), download, upload)`
as called on line 388-390: the jitter comparison can raise. -/
def assess_quality_rawjitter (ping : ℚ) (jitter : PyVal)
    (download upload : ℚ) : Except Str Str := do
  let b1 ← qualityBranch (decide (ping < 20)) jitter 5
    (decide (download > 50) && decide (upload > 20))
  if b1 then return S "Excellent" else
  let b2 ← qualityBranch (decide (ping < 50)) jitter 10
    (decide (download > 25) && decide (upload > 10))
  if b2 then return S "Good" else
  let b3 ← qualityBranch (decide (ping < 100)) jitter 20
    (decide (download > 10) && decide (upload > 5))
  if b3 then return S "Fair" else return S "Poor"

/-- `generate_quick_summary` (lines 370-415).  The `except` handler
returns an f-string referencing `quality`, `ping`, `download`, `upload`;
when the exception was raised before `quality` was assigned (any failure
of the `float()` conversions or of the jitter comparison), evaluating the
handler raises `UnboundLocalError`, which propagates to the caller —
modelled as `Except.error`.  Only a failure of the chat call, which
happens after `quality` is bound, reaches the fallback string. -/
def generate_quick_summary (is_configured : Bool)
    (chatClient : Str → Except Str Str) (test_data : Dict) :
    Except Str Str :=
  if is_configured then
    match pyFloat (dictGet test_data (S "ping") (.num 0)) with
    | .error _ => .error (S "cannot access local variable quality")
    | .ok ping =>
    match pyFloat (dictGet test_data (S "download") (.num 0)) with
    | .error _ => .error (S "cannot access local variable quality")
    | .ok download =>
    match pyFloat (dictGet test_data (S "upload") (.num 0)) with
    | .error _ => .error (S "cannot access local variable quality")
    | .ok upload =>
    match assess_quality_rawjitter ping
        (dictGet test_data (S "jitter") (.num 0)) download upload with
    | .error _ => .error (S "cannot access local variable quality")
    | .ok quality =>
      match chatClient
        (S "Buat ringkasan singkat dalam 1 paragraf (maksimal 3-4 kalimat) tentang hasil speedtest ini. Gunakan bahasa Indonesia yang santai dan mudah dipahami:\n\nPing: " ++
         ratRepr ping ++ S "ms\nDownload: " ++ ratRepr download ++
         S " Mbps\nUpload: " ++ ratRepr upload ++ S " Mbps\nISP: " ++
         pyRepr (dictGet test_data (S "isp") (.str (S "Unknown"))) ++
         S "\nKualitas: " ++ quality ++
         S "\n\nFokus pada:\n1. Penilaian kualitas secara keseluruhan\n2. Cocok untuk aktivitas apa (streaming, gaming, video call, dll)\n3. Satu insight atau saran singkat\n\nGunakan bahasa yang friendly dan to-the-point. Jangan pakai bullet points, cukup paragraf mengalir.") with
      | .error _ =>
        .ok (S "Internet kamu saat ini " ++ quality ++ S ". Ping " ++
          ratRepr ping ++ S "ms, Download " ++ ratRepr download ++
          S " Mbps, Upload " ++ ratRepr upload ++ S " Mbps.")
      | .ok text => .ok (pyStrip text)
  else
    .ok (S "Mistral AI belum dikonfigurasi. Silakan atur API key di Settings.")

/-! ## Claim-side definitions

`parseSpec` renders the spec's description of the response parser
(C3) so it can be compared with `parse_ai_response`; `wfServer` captures
the shape invariant `save_test_result` guarantees for the stored server
fields, used by the CSV round-trip claim (C4). -/

/-- Spec wording: a line containing one of the five fixed keyword pairs
as a case-insensitive substring activates the corresponding section,
the pairs being tried in the order the spec lists them (the first match
wins).  Unlike the code's `headerOf`, which looks inside
`line.lower().strip()`, this looks inside the lowered but unstripped
line, as the claim says "a line containing ... as a case-insensitive
substring". -/
def specHeaderOf (line : Str) : Option Sec :=
  if isSubB (S "penilaian performa") (toLowerStr line) ||
     isSubB (S "performance assessment") (toLowerStr line) then some .pa
  else if isSubB (S "analisis tren") (toLowerStr line) ||
     isSubB (S "trend analysis") (toLowerStr line) then some .ta
  else if isSubB (S "deteksi anomali") (toLowerStr line) ||
     isSubB (S "anomaly detection") (toLowerStr line) then some .ad
  else if isSubB (S "analisis penyebab") (toLowerStr line) ||
     isSubB (S "root cause") (toLowerStr line) then some .rca
  else if isSubB (S "rekomendasi") (toLowerStr line) ||
     isSubB (S "recommendation") (toLowerStr line) then some .recs
  else none

/-- Spec wording of one parsing step: header lines switch the active
section; otherwise, with a section active, a non-blank line is appended
to that section's text — except that the recommendations section
collects only lines whose stripped form begins with a bullet/number
marker. -/
def specStep (st : Option Sec × Sections) (line : Str) :
    Option Sec × Sections :=
  match specHeaderOf line with
  | some sec => (some sec, st.2)
  | none =>
    match st.1 with
    | none => st
    | some sec =>
      if pyStrip line ≠ [] then
        if sec = .recs then
          if startsWithAny recMarkers (pyStrip line) then
            (st.1, { st.2 with recommendations :=
              st.2.recommendations ++ [pyStrip line] })
          else st
        else (st.1, addContent st.2 sec line)
      else st

/-- The response parser as the spec describes it (C3). -/
def parseSpec (response : Str) : Sections :=
  stripSections
    ((splitOnChar '\n' response).foldl specStep (none, emptySections)).2

/-- Shape of the `(server_name, server_country)` pairs that
`save_test_result` stores: the country carries no parentheses and no
edge whitespace; when a country is present the name has no `'('` and no
edge whitespace; when it is absent the name never contains both `'('`
and `')'`.  Every output of `parseServer` has this shape, and it is
exactly what makes the CSV export/import of the server string lossless. -/
def wfServer (name country : Str) : Prop :=
  ('(' ∉ country ∧ ')' ∉ country ∧
    trimLeft country = country ∧ trimRight country = country) ∧
  (country ≠ [] → '(' ∉ name ∧ trimLeft name = name ∧ trimRight name = name) ∧
  (country = [] → ¬('(' ∈ name ∧ ')' ∈ name))

instance (name country : Str) : Decidable (wfServer name country) := by
  unfold wfServer; infer_instance

/-- A backend holding no rows whose every client call succeeds: the
target of the CSV re-import in the round-trip claim. -/
def freshBackend : Backend :=
  { tableOk := true, chatOk := true, is_connected := true,
    tests := [], chats := [], rpcTests := none, rpcChats := none }

/-- A backend whose every client call raises (unreachable or
misconfigured). -/
def allCallsRaise (b : Backend) : Prop :=
  b.tableOk = false ∧ b.chatOk = false ∧ b.rpcTests = none ∧ b.rpcChats = none

/-! ## Theorems -/

/-- **C1.** For every test record, the quality label is a pure function
of (ping, jitter, download, upload) given by the spec's table, evaluated
in order with the first match winning and strict comparisons at the
boundaries; in particular ping = 20 never yields `"Excellent"`, the
input (15, 3, 80, 30) yields `"Excellent"` and (150, 30, 5, 2) yields
`"Poor"`. -/
theorem c1_quality_label :
    (∀ p j d u : ℚ,
      (assess_quality p j d u = S "Excellent" ↔
        p < 20 ∧ j < 5 ∧ d > 50 ∧ u > 20) ∧
      (assess_quality p j d u = S "Good" ↔
        ¬(p < 20 ∧ j < 5 ∧ d > 50 ∧ u > 20) ∧
        (p < 50 ∧ j < 10 ∧ d > 25 ∧ u > 10)) ∧
      (assess_quality p j d u = S "Fair" ↔
        ¬(p < 20 ∧ j < 5 ∧ d > 50 ∧ u > 20) ∧
        ¬(p < 50 ∧ j < 10 ∧ d > 25 ∧ u > 10) ∧
        (p < 100 ∧ j < 20 ∧ d > 10 ∧ u > 5)) ∧
      (assess_quality p j d u = S "Poor" ↔
        ¬(p < 20 ∧ j < 5 ∧ d > 50 ∧ u > 20) ∧
        ¬(p < 50 ∧ j < 10 ∧ d > 25 ∧ u > 10) ∧
        ¬(p < 100 ∧ j < 20 ∧ d > 10 ∧ u > 5))) ∧
    (∀ j d u : ℚ, assess_quality 20 j d u ≠ S "Excellent") ∧
    assess_quality 15 3 80 30 = S "Excellent" ∧
    assess_quality 150 30 5 2 = S "Poor" := by
  refine ⟨?_, ?_, ?_, ?_⟩
  · intro p j d u
    unfold assess_quality
    split_ifs with h1 h2 h3
    · exact ⟨iff_of_true rfl h1,
        iff_of_false (by decide) (fun h => h.1 h1),
        iff_of_false (by decide) (fun h => h.1 h1),
        iff_of_false (by decide) (fun h => h.1 h1)⟩
    · exact ⟨iff_of_false (by decide) h1,
        iff_of_true rfl ⟨h1, h2⟩,
        iff_of_false (by decide) (fun h => h.2.1 h2),
        iff_of_false (by decide) (fun h => h.2.1 h2)⟩
    · exact ⟨iff_of_false (by decide) h1,
        iff_of_false (by decide) (fun h => h2 h.2),
        iff_of_true rfl ⟨h1, h2, h3⟩,
        iff_of_false (by decide) (fun h => h.2.2 h3)⟩
    · exact ⟨iff_of_false (by decide) h1,
        iff_of_false (by decide) (fun h => h2 h.2),
        iff_of_false (by decide) (fun h => h3 h.2.2),
        iff_of_true rfl ⟨h1, h2, h3⟩⟩
  · intro j d u h
    unfold assess_quality at h
    split_ifs at h with h1 h2 h3
    · exact absurd h1.1 (lt_irrefl (20 : ℚ))
    · exact absurd h (by decide)
    · exact absurd h (by decide)
    · exact absurd h (by decide)
  · decide
  · decide

lemma splitOnChar_nil (c : Char) : splitOnChar c ([] : Str) = [[]] := rfl

lemma splitOnChar_cons (c x : Char) (xs : Str) :
    splitOnChar c (x :: xs) =
      match splitOnChar c xs with
      | [] => [[]]
      | h :: t => if x = c then [] :: h :: t else (x :: h) :: t := rfl

lemma splitOnChar_ne_nil (c : Char) (s : Str) : splitOnChar c s ≠ [] := by
  induction s with
  | nil => simp [splitOnChar_nil]
  | cons x xs ih =>
    rw [splitOnChar_cons]
    cases h : splitOnChar c xs with
    | nil => exact absurd h ih
    | cons hh tt => dsimp only; split <;> simp

lemma splitOnChar_headI (c : Char) :
    ∀ s : Str, (splitOnChar c s).headI = s.takeWhile (fun a => !(a == c)) := by
  intro s
  induction s with
  | nil => simp [splitOnChar_nil]
  | cons x xs ih =>
    rw [splitOnChar_cons]
    cases h : splitOnChar c xs with
    | nil => exact absurd h (splitOnChar_ne_nil c xs)
    | cons hh tt =>
      rw [h] at ih
      simp only [List.headI] at ih
      by_cases hx : x = c
      · subst hx
        simp [List.takeWhile_cons]
      · have hb : (x == c) = false := beq_eq_false_iff_ne.mpr hx
        simp only [List.takeWhile_cons, hb, Bool.not_false, if_neg hx, if_true]
        simpa [List.headI] using congrArg (x :: ·) ih

lemma splitOnChar_tail (c : Char) :
    ∀ s : Str, c ∈ s →
      (splitOnChar c s).tail =
        splitOnChar c ((s.dropWhile (fun a => !(a == c))).tail) := by
  intro s
  induction s with
  | nil => intro h; cases h
  | cons x xs ih =>
    intro hmem
    rw [splitOnChar_cons]
    cases h : splitOnChar c xs with
    | nil => exact absurd h (splitOnChar_ne_nil c xs)
    | cons hh tt =>
      by_cases hx : x = c
      · subst hx
        simp only [List.dropWhile_cons, beq_self_eq_true, Bool.not_true,
          if_neg (Bool.false_ne_true), List.tail_cons]
        simp [← h]
      · have hxs : c ∈ xs := by
          rcases List.mem_cons.mp hmem with h1 | h1
          · exact absurd h1.symm hx
          · exact h1
        have ht := ih hxs
        rw [h] at ht
        simp only [List.tail_cons] at ht
        have hb : (x == c) = false := beq_eq_false_iff_ne.mpr hx
        simp only [if_neg hx, List.tail_cons, List.dropWhile_cons, hb,
          Bool.not_false, if_true]
        exact ht

lemma splitOnChar_not_mem (c : Char) {s : Str} (h : c ∉ s) :
    splitOnChar c s = [s] := by
  induction s with
  | nil => simp [splitOnChar_nil]
  | cons x xs ih =>
    have hx : x ≠ c := fun e => h (e ▸ List.mem_cons_self x xs)
    have hxs : c ∉ xs := fun m => h (List.mem_cons_of_mem x m)
    rw [splitOnChar_cons, ih hxs]
    simp [hx]

lemma splitOnChar_append (c : Char) {a : Str} (b : Str) (h : c ∉ a) :
    splitOnChar c (a ++ c :: b) = a :: splitOnChar c b := by
  induction a with
  | nil =>
    simp only [List.nil_append]
    rw [splitOnChar_cons]
    cases hb : splitOnChar c b with
    | nil => exact absurd hb (splitOnChar_ne_nil c b)
    | cons hh tt => simp [← hb]
  | cons x xs ih =>
    have hx : x ≠ c := fun e => h (e ▸ List.mem_cons_self x xs)
    have hxs : c ∉ xs := fun m => h (List.mem_cons_of_mem x m)
    simp only [List.cons_append]
    rw [splitOnChar_cons, ih hxs]
    simp [hx]

/-- **C7 counterexample.** For `server = "Jakarta (ID) backup"` the code
stores `server_country = "ID backup"` — everything after the first `'('`
with the `')'` characters deleted — not the text `"ID"` enclosed by the
first parenthesis pair as the claim states. -/
theorem c7_counterexample :
    (parseServer (S "Jakarta (ID) backup")).1 = S "Jakarta" ∧
    (parseServer (S "Jakarta (ID) backup")).2 = S "ID backup" ∧
    S "ID backup" ≠ S "ID" := by
  refine ⟨?_, ?_, ?_⟩ <;> decide

/-- Characterisation of the server-parsing block: name = text before
the first `'('` (stripped), country = text strictly between the first
`'('` and the next `'('` or end of string, `')'` removed, stripped. -/
lemma parseServer_eq : ∀ s : Str,
    parseServer s =
      if '(' ∈ s ∧ ')' ∈ s then
        (pyStrip (s.takeWhile (fun a => !(a == '('))),
         pyStrip ((((s.dropWhile (fun a => !(a == '('))).tail).takeWhile
            (fun a => !(a == '('))).filter (fun a => a ≠ ')')))
      else (s, []) := by
  intro s
  unfold parseServer
  split_ifs with h
  · have h1 := splitOnChar_headI '(' s
    have h2 := splitOnChar_tail '(' s h.1
    rw [Prod.ext_iff]
    refine ⟨congrArg pyStrip h1, ?_⟩
    dsimp only
    rw [h2, splitOnChar_headI]
  · rfl

/-- **C7 amended.** If `s` contains both `'('` and `')'`, the stored
name is the text before the first `'('`, stripped, and the stored
country is the text strictly between the first `'('` and the next `'('`
(or end of string), with every `')'` removed, then stripped; otherwise
the name is `s` unchanged and the country is empty.  This agrees with
the original claim exactly when the first pair closes the string, as in
`"Name (Country)"`. -/
theorem c7_server_parse_amended : ∀ s : Str,
    parseServer s =
      if '(' ∈ s ∧ ')' ∈ s then
        (pyStrip (s.takeWhile (fun a => !(a == '('))),
         pyStrip ((((s.dropWhile (fun a => !(a == '('))).tail).takeWhile
            (fun a => !(a == '('))).filter (fun a => a ≠ ')')))
      else (s, []) := parseServer_eq

/-- **C10.** Falsy optional arguments are dropped: saving a test result
with `embedding=[]` behaves exactly like saving with no embedding and the
built row carries no embedding field, and saving a chat message with
`session_id=""`, `test_context={}` and `embedding=[]` behaves exactly
like saving with all three absent, the row carrying none of the three
fields. -/
theorem c10_falsy_optionals_dropped :
    (∀ (b : Backend) (td : Dict) (now : Str),
      save_test_result b td (some []) now = save_test_result b td none now) ∧
    (∀ (td : Dict) (now : Str),
      (test_insert_row td (some []) now).map (fun r => r.embedding) =
      (test_insert_row td (some []) now).map
        (fun _ => (none : Option (List ℚ)))) ∧
    (∀ (b : Backend) (uip um br : Str) (now : Str),
      save_chat_message b uip um br (some []) (some []) (some []) now =
      save_chat_message b uip um br none none none now) ∧
    (∀ (uip um br now : Str),
      (chat_insert_row uip um br (some []) (some []) (some []) now).session_id
        = none ∧
      (chat_insert_row uip um br (some []) (some []) (some []) now).test_context
        = none ∧
      (chat_insert_row uip um br (some []) (some []) (some []) now).embedding
        = none) := by
  refine ⟨fun b td now => rfl, fun td now => ?_, fun b uip um br now => rfl,
    fun uip um br now => ⟨rfl, rfl, rfl⟩⟩
  unfold test_insert_row
  cases dictGet td (S "server") (.str (S "Unknown")) with
  | num q => rfl
  | str s =>
    cases pyFloat (dictGet td (S "ping") (.num 0)) with
    | error e => rfl
    | ok ping =>
      cases pyFloat (dictGet td (S "jitter") (.num 0)) with
      | error e => rfl
      | ok jitter =>
        cases pyFloat (dictGet td (S "download") (.num 0)) with
        | error e => rfl
        | ok download =>
          cases pyFloat (dictGet td (S "upload") (.num 0)) with
          | error e => rfl
          | ok upload => rfl

/-- `save_test_result` against a backend whose table calls raise leaves
the backend unchanged and reports failure, whatever the row data. -/
lemma save_test_result_fail {b : Backend} (h : b.tableOk = false)
    (td : Dict) (emb : Option (List ℚ)) (now : Str) :
    save_test_result b td emb now = (false, b) := by
  unfold save_test_result
  cases test_insert_row td emb now <;> simp [h]

/-- The migration row loop against a backend whose table calls raise
only counts rows: no row is imported, the backend is unchanged. -/
lemma migrateRows_fail (embGen : Option (Str → Except Str (List ℚ)))
    (now : Str) :
    ∀ (rows : List CsvRow) (succ tot : Nat) (b : Backend),
      b.tableOk = false →
      rows.foldl (migrateRow embGen now) ((succ, tot), b) =
        ((succ, tot + rows.length), b) := by
  intro rows
  induction rows with
  | nil => intro succ tot b _; simp
  | cons r rs ih =>
    intro succ tot b h
    have hstep : migrateRow embGen now ((succ, tot), b) r =
        ((succ, tot + 1), b) := by
      unfold migrateRow
      dsimp only
      rw [save_test_result_fail h]
    rw [List.foldl_cons, hstep, ih (succ) (tot + 1) b h]
    simp [Nat.add_assoc, Nat.add_comm 1 rs.length]

/-- **C2 amended.** Against a backend where every client call raises,
each operation catches the exception and returns its safe default —
`False`, `[]`, `{}` or `0` — except that `migrate_csv_to_supabase`
returns `(0, n)` for an existing CSV file with `n` rows (the per-row
saves fail individually; `(0, 0)` only when the file is missing), and
`query_similar_tests` reaches `[]` only through its fallback to
`get_recent_tests`, which also fails.  (When only the RPC raises,
`query_similar_tests` instead returns the fallback's rows — see the
counterexample.) -/
theorem c2_safe_defaults_amended :
    ∀ b : Backend, allCallsRaise b →
      (connect b).1 = false ∧
      (∀ td emb now, (save_test_result b td emb now).1 = false) ∧
      (∀ uip um br sid tc emb now,
        (save_chat_message b uip um br sid tc emb now).1 = false) ∧
      (∀ n, get_recent_tests b n = []) ∧
      (∀ uip n, get_user_chat_history b uip n = []) ∧
      (∀ n, get_all_chat_history b n = []) ∧
      (∀ e n, query_similar_tests b e n = []) ∧
      (∀ e t n, search_similar_chats b e t n = []) ∧
      get_statistics b = [] ∧
      get_chat_statistics b = [] ∧
      get_total_count b = 0 ∧
      (sync_to_csv b).1 = false ∧
      (∀ file embGen now,
        (migrate_csv_to_supabase b file embGen now).1 =
          (0, match file with
              | none => 0
              | some rows => rows.length)) := by
  rintro b ⟨hT, hC, hRT, hRC⟩
  refine ⟨?_, ?_, ?_, ?_, ?_, ?_, ?_, ?_, ?_, ?_, ?_, ?_, ?_⟩
  · simp [connect, hT]
  · intro td emb now; rw [save_test_result_fail hT]
  · intro uip um br sid tc emb now; simp [save_chat_message, hC]
  · intro n; simp [get_recent_tests, hT]
  · intro uip n; simp [get_user_chat_history, hC]
  · intro n; simp [get_all_chat_history, hC]
  · intro e n; simp [query_similar_tests, hRT, get_recent_tests, hT]
  · intro e t n; simp [search_similar_chats, hRC]
  · simp [get_statistics, hT]
  · simp [get_chat_statistics, hC]
  · simp [get_total_count, hT]
  · simp [sync_to_csv, hT]
  · intro file embGen now
    cases file with
    | none => rfl
    | some rows =>
      show (List.foldl (migrateRow embGen now) ((0, 0), b) rows).1 =
        (0, rows.length)
      rw [migrateRows_fail embGen now rows 0 0 b hT]
      simp

/-- **C2 witness.** The amended safe-default theorem applied to a
concrete fully-failing backend. -/
theorem c2_safe_defaults_amended_witness :
    allCallsRaise (Backend.mk false false false [] [] none none) ∧
    (connect (Backend.mk false false false [] [] none none)).1 = false :=
  ⟨⟨rfl, rfl, rfl, rfl⟩,
   (c2_safe_defaults_amended _ ⟨rfl, rfl, rfl, rfl⟩).1⟩

/-- **C2 counterexample.** When only the vector-search RPC raises while
the table is readable and holds one row, `query_similar_tests` does not
return the documented safe default `[]`: it returns the fallback's
non-empty recent rows. -/
theorem c2_counterexample :
    query_similar_tests
      (Backend.mk true true false
        [TestRow.mk (.str (S "t1")) 10 1 50 20 (S "A") [] (.str (S "X"))
          (.str (S "ip")) none]
        [] none none) [] 5 =
      [TestRow.mk (.str (S "t1")) 10 1 50 20 (S "A") [] (.str (S "X"))
        (.str (S "ip")) none] ∧
    [TestRow.mk (.str (S "t1")) 10 1 50 20 (S "A") [] (.str (S "X"))
      (.str (S "ip")) none] ≠ ([] : List TestRow) := by
  exact ⟨rfl, by simp⟩

/-- **C6 amended.** `query_similar_tests` falls back to
`get_recent_tests(limit)` when the `match_speedtest_history` RPC raises;
`search_similar_chats`, however, returns the empty list when the
`match_chat_history` RPC raises — it has no most-recent fallback. -/
theorem c6_rpc_fallback_amended :
    (∀ (b : Backend) (e : List ℚ) (n : Nat), b.rpcTests = none →
      query_similar_tests b e n = get_recent_tests b n) ∧
    (∀ (b : Backend) (e : List ℚ) (t : ℚ) (n : Nat), b.rpcChats = none →
      search_similar_chats b e t n = []) := by
  constructor
  · intro b e n h; unfold query_similar_tests; rw [h]
  · intro b e t n h; unfold search_similar_chats; rw [h]

/-- **C6 witness.** The amended fallback theorem applied to a concrete
backend whose RPC functions are unavailable. -/
theorem c6_rpc_fallback_amended_witness :
    query_similar_tests (Backend.mk true true false [] [] none none) [] 3 =
      get_recent_tests (Backend.mk true true false [] [] none none) 3 ∧
    search_similar_chats (Backend.mk true true false [] [] none none) []
      (7 / 10) 3 = [] :=
  ⟨(c6_rpc_fallback_amended.1 _ [] 3 rfl),
   (c6_rpc_fallback_amended.2 _ [] (7 / 10) 3 rfl)⟩

/-- **C6 counterexample.** With the chat RPC unavailable and one stored
chat row, `search_similar_chats` returns `[]`, not the most recent
records (`get_all_chat_history` shows the row the claimed fallback would
have produced). -/
theorem c6_counterexample :
    search_similar_chats
      (Backend.mk true true false []
        [ChatRow.mk (S "u") (S "q") (S "a") (S "t") none none none]
        none none) [] (7 / 10) 5 = [] ∧
    get_all_chat_history
      (Backend.mk true true false []
        [ChatRow.mk (S "u") (S "q") (S "a") (S "t") none none none]
        none none) 5 =
      [ChatRow.mk (S "u") (S "q") (S "a") (S "t") none none none] ∧
    [ChatRow.mk (S "u") (S "q") (S "a") (S "t") none none none] ≠
      ([] : List ChatRow) := by
  exact ⟨rfl, rfl, by simp⟩

/-- Python `max()` over a non-empty sequence, as the left fold the code
performs: the result bounds every element and is attained. -/
lemma foldl_max_spec (f : TestRow → ℚ) :
    ∀ (l : List TestRow) (a : ℚ),
      a ≤ l.foldl (fun m r => max m (f r)) a ∧
      (∀ r ∈ l, f r ≤ l.foldl (fun m r => max m (f r)) a) ∧
      (l.foldl (fun m r => max m (f r)) a = a ∨
        ∃ r ∈ l, l.foldl (fun m r => max m (f r)) a = f r) := by
  intro l
  induction l with
  | nil => exact fun a => ⟨le_rfl, by simp, Or.inl rfl⟩
  | cons y ys ih =>
    intro a
    simp only [List.foldl_cons]
    obtain ⟨h1, h2, h3⟩ := ih (max a (f y))
    refine ⟨le_trans (le_max_left a (f y)) h1, ?_, ?_⟩
    · intro r hr
      rcases List.mem_cons.mp hr with h | h
      · subst h; exact le_trans (le_max_right a (f r)) h1
      · exact h2 r h
    · rcases h3 with heq | ⟨r, hr, heq⟩
      · rcases max_choice a (f y) with hm | hm
        · exact Or.inl (heq.trans hm)
        · exact Or.inr ⟨y, List.mem_cons_self y ys, heq.trans hm⟩
      · exact Or.inr ⟨r, List.mem_cons_of_mem y hr, heq⟩

/-- Python `min()` over a non-empty sequence, as the left fold the code
performs. -/
lemma foldl_min_spec (f : TestRow → ℚ) :
    ∀ (l : List TestRow) (a : ℚ),
      l.foldl (fun m r => min m (f r)) a ≤ a ∧
      (∀ r ∈ l, l.foldl (fun m r => min m (f r)) a ≤ f r) ∧
      (l.foldl (fun m r => min m (f r)) a = a ∨
        ∃ r ∈ l, l.foldl (fun m r => min m (f r)) a = f r) := by
  intro l
  induction l with
  | nil => exact fun a => ⟨le_rfl, by simp, Or.inl rfl⟩
  | cons y ys ih =>
    intro a
    simp only [List.foldl_cons]
    obtain ⟨h1, h2, h3⟩ := ih (min a (f y))
    refine ⟨le_trans h1 (min_le_left a (f y)), ?_, ?_⟩
    · intro r hr
      rcases List.mem_cons.mp hr with h | h
      · subst h; exact le_trans h1 (min_le_right a (f r))
      · exact h2 r h
    · rcases h3 with heq | ⟨r, hr, heq⟩
      · rcases min_choice a (f y) with hm | hm
        · exact Or.inl (heq.trans hm)
        · exact Or.inr ⟨y, List.mem_cons_self y ys, heq.trans hm⟩
      · exact Or.inr ⟨r, List.mem_cons_of_mem y hr, heq⟩

/-- **C8 amended.** For a non-empty stored record set, `get_statistics`
computes on demand a snapshot holding the record count, the averages of
all four numeric fields (each the field sum divided by the count), the
maxima of download and upload, and the minimum of ping (each a bound
over the full record set that is attained by some record).  The snapshot
has no minimum for download, upload or jitter and no maximum for ping or
jitter — see the counterexample. -/
theorem c8_statistics_amended :
    ∀ (b : Backend) (d : TestRow) (ds : List TestRow),
      b.tableOk = true → b.tests = d :: ds →
      List.lookup (S "count") (get_statistics b) =
        some (.num (((d :: ds).length : ℚ))) ∧
      List.lookup (S "avg_ping") (get_statistics b) =
        some (.num (((d :: ds).map (·.ping_ms)).sum /
          (((d :: ds).length : ℚ)))) ∧
      List.lookup (S "avg_jitter") (get_statistics b) =
        some (.num (((d :: ds).map (·.jitter_ms)).sum /
          (((d :: ds).length : ℚ)))) ∧
      List.lookup (S "avg_download") (get_statistics b) =
        some (.num (((d :: ds).map (·.download_mbps)).sum /
          (((d :: ds).length : ℚ)))) ∧
      List.lookup (S "avg_upload") (get_statistics b) =
        some (.num (((d :: ds).map (·.upload_mbps)).sum /
          (((d :: ds).length : ℚ)))) ∧
      (∃ M, List.lookup (S "max_download") (get_statistics b) =
          some (.num M) ∧
        (∀ r ∈ d :: ds, r.download_mbps ≤ M) ∧
        (∃ r ∈ d :: ds, r.download_mbps = M)) ∧
      (∃ M, List.lookup (S "max_upload") (get_statistics b) =
          some (.num M) ∧
        (∀ r ∈ d :: ds, r.upload_mbps ≤ M) ∧
        (∃ r ∈ d :: ds, r.upload_mbps = M)) ∧
      (∃ m, List.lookup (S "min_ping") (get_statistics b) = some (.num m) ∧
        (∀ r ∈ d :: ds, m ≤ r.ping_ms) ∧
        (∃ r ∈ d :: ds, r.ping_ms = m)) := by
  intro b d ds hT hb
  have hstats : get_statistics b =
      [(S "count", .num (((d :: ds).length : ℚ))),
       (S "avg_ping", .num (((d :: ds).map (·.ping_ms)).sum /
          (((d :: ds).length : ℚ)))),
       (S "avg_jitter", .num (((d :: ds).map (·.jitter_ms)).sum /
          (((d :: ds).length : ℚ)))),
       (S "avg_download", .num (((d :: ds).map (·.download_mbps)).sum /
          (((d :: ds).length : ℚ)))),
       (S "avg_upload", .num (((d :: ds).map (·.upload_mbps)).sum /
          (((d :: ds).length : ℚ)))),
       (S "max_download", .num (ds.foldl (fun m r => max m r.download_mbps)
          d.download_mbps)),
       (S "max_upload", .num (ds.foldl (fun m r => max m r.upload_mbps)
          d.upload_mbps)),
       (S "min_ping", .num (ds.foldl (fun m r => min m r.ping_ms)
          d.ping_ms))] := by
    unfold get_statistics
    rw [hb, if_pos hT]
  refine ⟨by rw [hstats]; rfl, by rw [hstats]; rfl, by rw [hstats]; rfl,
    by rw [hstats]; rfl, by rw [hstats]; rfl, ?_, ?_, ?_⟩
  · obtain ⟨h1, h2, h3⟩ :=
      foldl_max_spec (·.download_mbps) ds d.download_mbps
    refine ⟨ds.foldl (fun m r => max m r.download_mbps) d.download_mbps,
      by rw [hstats]; rfl, ?_, ?_⟩
    · intro r hr
      rcases List.mem_cons.mp hr with h | h
      · subst h; exact h1
      · exact h2 r h
    · rcases h3 with heq | ⟨r, hr, heq⟩
      · exact ⟨d, List.mem_cons_self d ds, heq.symm⟩
      · exact ⟨r, List.mem_cons_of_mem d hr, heq.symm⟩
  · obtain ⟨h1, h2, h3⟩ := foldl_max_spec (·.upload_mbps) ds d.upload_mbps
    refine ⟨ds.foldl (fun m r => max m r.upload_mbps) d.upload_mbps,
      by rw [hstats]; rfl, ?_, ?_⟩
    · intro r hr
      rcases List.mem_cons.mp hr with h | h
      · subst h; exact h1
      · exact h2 r h
    · rcases h3 with heq | ⟨r, hr, heq⟩
      · exact ⟨d, List.mem_cons_self d ds, heq.symm⟩
      · exact ⟨r, List.mem_cons_of_mem d hr, heq.symm⟩
  · obtain ⟨h1, h2, h3⟩ := foldl_min_spec (·.ping_ms) ds d.ping_ms
    refine ⟨ds.foldl (fun m r => min m r.ping_ms) d.ping_ms,
      by rw [hstats]; rfl, ?_, ?_⟩
    · intro r hr
      rcases List.mem_cons.mp hr with h | h
      · subst h; exact h1
      · exact h2 r h
    · rcases h3 with heq | ⟨r, hr, heq⟩
      · exact ⟨d, List.mem_cons_self d ds, heq.symm⟩
      · exact ⟨r, List.mem_cons_of_mem d hr, heq.symm⟩

/-- **C8 witness.** The amended statistics theorem applied to a concrete
one-row backend. -/
theorem c8_statistics_amended_witness :
    List.lookup (S "count")
      (get_statistics (Backend.mk true true false
        [TestRow.mk (.str (S "t1")) 10 1 50 20 (S "A") [] (.str (S "X"))
          (.str (S "ip")) none] [] none none)) =
      some (.num ((([TestRow.mk (.str (S "t1")) 10 1 50 20 (S "A") []
        (.str (S "X")) (.str (S "ip")) none].length : ℚ)))) :=
  (c8_statistics_amended _ _ [] rfl rfl).1

/-- **C8 counterexample.** With two stored records whose download speeds
are 10 and 20 Mbps, the snapshot holds exactly the eight aggregates
`count`, the four averages, `max_download`, `max_upload` and `min_ping`:
it has no `min_download` entry and no aggregate equal to the download
minimum 10 at all, so it does not contain the minimum and maximum of
every numeric field. -/
theorem c8_counterexample :
    get_statistics (Backend.mk true true false
        [TestRow.mk (.str (S "t1")) 1 2 10 4 (S "A") [] (.str (S "X"))
           (.str (S "ip")) none,
         TestRow.mk (.str (S "t2")) 3 6 20 8 (S "A") [] (.str (S "X"))
           (.str (S "ip")) none] [] none none) =
      [(S "count", .num 2), (S "avg_ping", .num 2), (S "avg_jitter", .num 4),
       (S "avg_download", .num 15), (S "avg_upload", .num 6),
       (S "max_download", .num 20), (S "max_upload", .num 8),
       (S "min_ping", .num 1)] ∧
    List.lookup (S "min_download")
      [(S "count", PyVal.num 2), (S "avg_ping", .num 2),
       (S "avg_jitter", .num 4), (S "avg_download", .num 15),
       (S "avg_upload", .num 6), (S "max_download", .num 20),
       (S "max_upload", .num 8), (S "min_ping", .num 1)] = none ∧
    ¬ (PyVal.num 10) ∈
      ([(S "count", PyVal.num 2), (S "avg_ping", .num 2),
        (S "avg_jitter", .num 4), (S "avg_download", .num 15),
        (S "avg_upload", .num 6), (S "max_download", .num 20),
        (S "max_upload", .num 8), (S "min_ping", .num 1)].map
          (fun kv => kv.2)) := by
  refine ⟨?_, by decide, by decide⟩
  unfold get_statistics
  norm_num [List.foldl, max_def, min_def]

lemma isSubB_cons (p : Str) (x : Char) (xs : Str) :
    isSubB p (x :: xs) = (p.isPrefixOf (x :: xs) || isSubB p xs) := rfl

/-- A substring of `b` is a substring of `a ++ b`. -/
lemma isSubB_append_left (p b : Str) (h : isSubB p b = true) :
    ∀ a : Str, isSubB p (a ++ b) = true := by
  intro a
  induction a with
  | nil => simpa
  | cons x xs ih =>
    rw [List.cons_append, isSubB_cons, ih, Bool.or_true]

lemma toLowerStr_append (a b : Str) :
    toLowerStr (a ++ b) = toLowerStr a ++ toLowerStr b :=
  List.map_append _ a b

/-- **C9.** `build_analysis_prompt` called with an empty similar-tests
list and an empty statistics dict returns (it is total), and the prompt
states "no historical data" and "no historical statistics" —
case-insensitively, via the sentences "No historical data available
yet." and "No historical statistics available yet." of the two
sections. -/
theorem c9_empty_prompt_mentions_no_history :
    ∀ current_test : Dict,
      isSubB (toLowerStr (S "no historical data"))
        (toLowerStr (build_analysis_prompt current_test [] [])) = true ∧
      isSubB (toLowerStr (S "no historical statistics"))
        (toLowerStr (build_analysis_prompt current_test [] [])) = true := by
  intro ct
  have hassoc : build_analysis_prompt ct [] [] =
      (S "Kamu adalah seorang ahli analisis performa jaringan internet. Analisis hasil speedtest berikut dan berikan insight yang mudah dipahami dalam Bahasa Indonesia.\n\n" ++
        currentInfo ct) ++
      (S "\n" ++ similarInfo [] ++ S "\n" ++ statsInfo [] ++ promptTail) := by
    unfold build_analysis_prompt
    simp [List.append_assoc]
  constructor <;>
    (rw [hassoc, toLowerStr_append]; apply isSubB_append_left; decide)

/-- **C5 counterexample.** `generate_quick_summary` on a configured
client with `test_data = {"ping": "abc"}`: `float("abc")` raises inside
the `try`, and the `except` handler's fallback f-string references
`quality`, which was never assigned — the handler itself raises
`UnboundLocalError`, which propagates past the layer instead of
returning an error dict or placeholder string. -/
theorem c5_counterexample :
    generate_quick_summary true (fun _ => .ok (S "ringkas"))
      [(S "ping", .str (S "abc"))] =
      .error (S "cannot access local variable quality") := rfl

/-- **C5 amended.** The unconfigured client or an API exception yields
the error dict (`success: false`) from `analyze_test_results`, a
placeholder string from `generate_summary` and (after successful
argument conversion) from `generate_quick_summary`, and `None` — not a
dict or string — from `generate_embedding` / `create_chat_embedding`;
but `generate_quick_summary` lets an exception propagate when numeric
conversion of its arguments fails, because the fallback string
references local variables that are then unbound. -/
theorem c5_failure_policy_amended :
    (∀ e c sm td, analyze_test_results false e c sm td =
      .failure (S "Mistral AI API not configured")) ∧
    (∀ e c sm td msg, create_test_description td = .error msg →
      analyze_test_results true e c sm td = .failure msg) ∧
    (∀ e c sm td desc msg, create_test_description td = .ok desc →
      e desc = .error msg →
      analyze_test_results true e c sm td =
        .failure (S "Failed to generate embedding")) ∧
    (∀ e c sm td desc, create_test_description td = .ok desc →
      e desc = .ok [] →
      analyze_test_results true e c sm td =
        .failure (S "Failed to generate embedding")) ∧
    (∀ e c td desc emb msg, create_test_description td = .ok desc →
      e desc = .ok emb → emb ≠ [] →
      c (build_analysis_prompt td [] []) = .error msg →
      analyze_test_results true e c none td = .failure msg) ∧
    (∀ c td, generate_summary false c td = S "Mistral AI API not configured") ∧
    (∀ c td msg, (∀ x, c x = Except.error msg) →
      generate_summary true c td = S "Error generating summary") ∧
    (∀ e t, generate_embedding false e t = none) ∧
    (∀ e t msg, e t = Except.error msg → generate_embedding true e t = none) ∧
    (∀ e um br, create_chat_embedding false e um br = none) ∧
    (∀ e um br msg, (∀ x, e x = Except.error msg) →
      create_chat_embedding true e um br = none) ∧
    (∀ c td, generate_quick_summary false c td =
      .ok (S "Mistral AI belum dikonfigurasi. Silakan atur API key di Settings.")) ∧
    (∀ c td msg p d u q, (∀ x, c x = Except.error msg) →
      pyFloat (dictGet td (S "ping") (.num 0)) = .ok p →
      pyFloat (dictGet td (S "download") (.num 0)) = .ok d →
      pyFloat (dictGet td (S "upload") (.num 0)) = .ok u →
      assess_quality_rawjitter p (dictGet td (S "jitter") (.num 0)) d u =
        .ok q →
      generate_quick_summary true c td =
        .ok (S "Internet kamu saat ini " ++ q ++ S ". Ping " ++ ratRepr p ++
          S "ms, Download " ++ ratRepr d ++ S " Mbps, Upload " ++ ratRepr u ++
          S " Mbps.")) ∧
    (∀ c td msg, pyFloat (dictGet td (S "ping") (.num 0)) = .error msg →
      generate_quick_summary true c td =
        .error (S "cannot access local variable quality")) := by
  refine ⟨fun e c sm td => rfl, ?_, ?_, ?_, ?_, fun c td => rfl, ?_,
    fun e t => rfl, ?_, fun e um br => rfl, ?_, fun c td => rfl, ?_, ?_⟩
  · intro e c sm td msg hdesc
    unfold analyze_test_results
    rw [if_pos rfl, hdesc]
  · intro e c sm td desc msg hdesc hemb
    unfold analyze_test_results generate_embedding
    simp only [eq_self_iff_true, if_true, hdesc, hemb]
  · intro e c sm td desc hdesc hemb
    unfold analyze_test_results generate_embedding
    simp only [eq_self_iff_true, if_true, hdesc, hemb]
  · intro e c td desc emb msg hdesc hemb hne hchat
    unfold analyze_test_results generate_embedding
    cases emb with
    | nil => exact absurd rfl hne
    | cons x xs =>
      simp only [eq_self_iff_true, if_true, hdesc, hemb, hchat]
  · intro c td msg hc
    unfold generate_summary
    rw [if_pos rfl, hc]
  · intro e t msg he
    unfold generate_embedding
    rw [if_pos rfl, he]
  · intro e um br msg he
    unfold create_chat_embedding generate_embedding
    rw [if_pos rfl, if_pos rfl, he]
  · intro c td msg p d u q hc hp hd hu hq
    unfold generate_quick_summary
    simp only [eq_self_iff_true, if_true, hp, hd, hu, hq, hc]
  · intro c td msg hp
    unfold generate_quick_summary
    rw [if_pos rfl, hp]

/-- **C5 witness.** The amended failure-policy theorem applied to
concrete failing clients and inputs. -/
theorem c5_failure_policy_amended_witness :
    create_test_description [(S "ping", PyVal.str (S "abc"))] =
      .error (S "could not convert string to float") ∧
    analyze_test_results true (fun _ => .ok [1]) (fun _ => .ok (S "x")) none
      [(S "ping", PyVal.str (S "abc"))] =
      .failure (S "could not convert string to float") :=
  ⟨rfl, (c5_failure_policy_amended.2.1 (fun _ => .ok [1])
    (fun _ => .ok (S "x")) none [(S "ping", PyVal.str (S "abc"))]
    (S "could not convert string to float") rfl)⟩

/-- `isSubB` is Python's substring test: it holds exactly for infixes. -/
lemma isSubB_iff_occurs (p : Str) : ∀ s : Str, isSubB p s = true ↔ p <:+: s := by
  intro s
  induction s with
  | nil =>
    show p.isEmpty = true ↔ _
    rw [List.isEmpty_iff, List.infix_nil]
  | cons x xs ih =>
    rw [isSubB_cons, Bool.or_eq_true, List.infix_cons_iff]
    exact or_congr List.isPrefixOf_iff_prefix ih

/-- `strip` only discards an outer layer: the stripped string sits inside
the original. -/
lemma pyStrip_occurs (t : Str) : pyStrip t <:+: t := by
  have h1 : trimLeft t <:+ t := List.dropWhile_suffix _
  have h2 : trimRight (trimLeft t) <+: trimLeft t := by
    have h3 := List.reverse_prefix.mpr
      (List.dropWhile_suffix (l := (trimLeft t).reverse) isPySpace)
    rw [List.reverse_reverse] at h3
    exact h3
  exact h2.isInfix.trans h1.isInfix

/-- Dropping a while-prefix cannot eat into an occurrence that starts
with a character the predicate rejects. -/
lemma dropWhile_keep (pr : Char → Bool) (c0 : Char) (r : Str)
    (hh : pr c0 = false) :
    ∀ a b : Str, ∃ a2, (a ++ (c0 :: r) ++ b).dropWhile pr =
      a2 ++ (c0 :: r) ++ b := by
  intro a
  induction a with
  | nil =>
    intro b
    refine ⟨[], ?_⟩
    simp [List.dropWhile_cons, hh]
  | cons x xs ih =>
    intro b
    cases hx : pr x with
    | true =>
      obtain ⟨a2, ha⟩ := ih b
      refine ⟨a2, ?_⟩
      simp only [List.cons_append, List.dropWhile_cons, hx, if_true]
      exact ha
    | false =>
      refine ⟨x :: xs, ?_⟩
      simp [List.dropWhile_cons, hx]

/-- An occurrence of a pattern with non-whitespace edges survives
`strip`. -/
lemma occurs_pyStrip_of_occurs (p t : Str) (hne : p ≠ [])
    (hh : isPySpace p.headI = false) (hl : isPySpace p.reverse.headI = false)
    (hinf : p <:+: t) : p <:+: pyStrip t := by
  obtain ⟨c0, r, hp⟩ := List.exists_cons_of_ne_nil hne
  have hrevne : p.reverse ≠ [] := by simp [hne]
  obtain ⟨c1, r1, hrev⟩ := List.exists_cons_of_ne_nil hrevne
  rw [hp] at hh
  rw [hrev] at hl
  simp only [List.headI] at hh hl
  obtain ⟨a, b, ht⟩ := hinf
  subst ht
  obtain ⟨a2, hTL⟩ := dropWhile_keep isPySpace c0 r hh a b
  rw [← hp] at hTL
  obtain ⟨b2, hTR⟩ := dropWhile_keep isPySpace c1 r1 hl b.reverse a2.reverse
  rw [← hrev] at hTR
  refine ⟨a2, b2.reverse, ?_⟩
  unfold pyStrip trimRight trimLeft
  rw [hTL]
  have hrw : (a2 ++ p ++ b).reverse = b.reverse ++ p.reverse ++ a2.reverse := by
    simp [List.reverse_append, List.append_assoc]
  rw [hrw, hTR]
  simp [List.reverse_append, List.reverse_reverse, List.append_assoc]

/-- Substring search in `line.lower().strip()` agrees with substring
search in `line.lower()` for a non-empty pattern whose first and last
characters are not whitespace. -/
lemma isSubB_strip (p : Str) (hne : p ≠ [])
    (hh : isPySpace p.headI = false) (hl : isPySpace p.reverse.headI = false)
    (t : Str) : isSubB p (pyStrip t) = isSubB p t := by
  by_cases hb : isSubB p t = true
  · rw [hb]
    exact (isSubB_iff_occurs p (pyStrip t)).mpr
      (occurs_pyStrip_of_occurs p t hne hh hl ((isSubB_iff_occurs p t).mp hb))
  · have h2 : ¬ isSubB p (pyStrip t) = true := fun hx =>
      hb ((isSubB_iff_occurs p t).mpr
        (((isSubB_iff_occurs p (pyStrip t)).mp hx).trans (pyStrip_occurs t)))
    rw [Bool.not_eq_true] at hb h2
    rw [hb, h2]

/-- The code's header detection on `line.lower().strip()` coincides with
the claim's description on the unstripped lowered line: all ten keywords
have non-whitespace edge characters. -/
lemma headerOf_strip (line : Str) :
    headerOf (pyStrip (toLowerStr line)) = specHeaderOf line := by
  unfold headerOf specHeaderOf
  rw [isSubB_strip (S "penilaian performa") (by decide) (by decide) (by decide),
      isSubB_strip (S "performance assessment") (by decide) (by decide) (by decide),
      isSubB_strip (S "analisis tren") (by decide) (by decide) (by decide),
      isSubB_strip (S "trend analysis") (by decide) (by decide) (by decide),
      isSubB_strip (S "deteksi anomali") (by decide) (by decide) (by decide),
      isSubB_strip (S "anomaly detection") (by decide) (by decide) (by decide),
      isSubB_strip (S "analisis penyebab") (by decide) (by decide) (by decide),
      isSubB_strip (S "root cause") (by decide) (by decide) (by decide),
      isSubB_strip (S "rekomendasi") (by decide) (by decide) (by decide),
      isSubB_strip (S "recommendation") (by decide) (by decide) (by decide)]

lemma parseStep_eq (st : Option Sec × Sections) (line : Str) :
    parseStep st line = specStep st line := by
  unfold parseStep specStep
  dsimp only
  rw [headerOf_strip]

set_option maxRecDepth 8192 in
/-- **C3.** `parse_ai_response` behaves exactly as the claim describes
(`parseSpec` is the claim's wording: case-insensitive substring search
for the five keyword pairs in the raw line, section switching, non-blank
content lines accumulated, recommendations collecting only
marker-prefixed lines); on a five-header Indonesian response the lines
are routed to their sections, and under the recommendations header
`"- saran 1"` is captured while the marker-less `"saran 1"` is
dropped. -/
theorem c3_parse_ai_response :
    (∀ response : Str, parse_ai_response response = parseSpec response) ∧
    parse_ai_response
      (S "1. **Penilaian Performa**: \nbagus sekali\n2. **Analisis Tren**: \nstabil\n3. **Deteksi Anomali**: \ntidak ada\n4. **Analisis Penyebab**: \nserver dekat\n5. **Rekomendasi**: \n- saran 1\nsaran 1\n* saran 2") =
      { performance_assessment := S "bagus sekali",
        trend_analysis := S "stabil",
        anomaly_detection := S "tidak ada",
        root_cause_analysis := S "server dekat",
        recommendations := [S "- saran 1", S "* saran 2"] } := by
  constructor
  · intro r
    unfold parse_ai_response parseSpec
    rw [List.foldl_ext parseStep specStep (none, emptySections)
      (fun a b _ => parseStep_eq a b)]
  · decide

lemma dropWhile_dropWhile (pr : Char → Bool) (s : Str) :
    (s.dropWhile pr).dropWhile pr = s.dropWhile pr := by
  induction s with
  | nil => rfl
  | cons x xs ih =>
    rw [List.dropWhile_cons]
    cases hx : pr x with
    | true => simpa [hx] using ih
    | false => simp [hx, List.dropWhile_cons]

lemma trimLeft_trimLeft (s : Str) : trimLeft (trimLeft s) = trimLeft s :=
  dropWhile_dropWhile _ s

lemma trimRight_trimRight (u : Str) : trimRight (trimRight u) = trimRight u := by
  unfold trimRight
  rw [List.reverse_reverse, dropWhile_dropWhile]

/-- A list fixed by `lstrip` starts with a non-space (or is empty). -/
lemma trimLeft_fix_head (x : Char) (xs : Str)
    (h : trimLeft (x :: xs) = x :: xs) : isPySpace x = false := by
  cases hx : isPySpace x with
  | false => rfl
  | true =>
    exfalso
    have hlen := (List.dropWhile_suffix (l := xs) isPySpace).length_le
    unfold trimLeft at h
    rw [List.dropWhile_cons, hx, if_pos rfl] at h
    rw [h] at hlen
    simp only [List.length_cons] at hlen
    omega

lemma prefix_trimLeft_fix {t u : Str} (hfix : trimLeft t = t)
    (hpre : u <+: t) : trimLeft u = u := by
  cases u with
  | nil => rfl
  | cons x xs =>
    obtain ⟨k, hk⟩ := hpre
    subst hk
    rw [List.cons_append] at hfix
    have hx := trimLeft_fix_head x (xs ++ k) hfix
    unfold trimLeft
    rw [List.dropWhile_cons, hx]
    simp

lemma trimRight_prefixOf (u : Str) : trimRight u <+: u := by
  have h3 := List.reverse_prefix.mpr
    (List.dropWhile_suffix (l := u.reverse) isPySpace)
  rw [List.reverse_reverse] at h3
  exact h3

lemma trimLeft_pyStrip (s : Str) : trimLeft (pyStrip s) = pyStrip s :=
  prefix_trimLeft_fix (trimLeft_trimLeft s) (trimRight_prefixOf (trimLeft s))

lemma trimRight_pyStrip (s : Str) : trimRight (pyStrip s) = pyStrip s :=
  trimRight_trimRight _

lemma pyStrip_subset {a : Char} {s : Str} (h : a ∈ pyStrip s) : a ∈ s :=
  (pyStrip_occurs s).subset h

/-- Stripping a string with clean edges plus one trailing space returns
the string. -/
lemma pyStrip_append_space {name : Str} (h1 : trimLeft name = name)
    (h2 : trimRight name = name) : pyStrip (name ++ [' ']) = name := by
  cases name with
  | nil => rfl
  | cons x xs =>
    have hx : isPySpace x = false := trimLeft_fix_head x xs h1
    unfold pyStrip
    have hTL : trimLeft ((x :: xs) ++ [' ']) = (x :: xs) ++ [' '] := by
      unfold trimLeft
      rw [List.cons_append, List.dropWhile_cons, hx]
      simp
    rw [hTL]
    unfold trimRight
    rw [List.reverse_append]
    rw [show ([' '] : Str).reverse = [' '] from rfl, List.singleton_append,
      List.dropWhile_cons]
    rw [show isPySpace ' ' = true from rfl, if_pos rfl]
    exact h2

lemma parseServer_bare (name : Str) (h : ¬('(' ∈ name ∧ ')' ∈ name)) :
    parseServer name = (name, []) := by
  unfold parseServer
  rw [if_neg h]

/-- Every `(server_name, server_country)` pair `save_test_result` stores
has the `wfServer` shape. -/
lemma parseServer_wf (s : Str) :
    wfServer (parseServer s).1 (parseServer s).2 := by
  rw [parseServer_eq s]
  split_ifs with h
  · refine ⟨⟨?_, ?_, trimLeft_pyStrip _, trimRight_pyStrip _⟩, ?_, ?_⟩
    · intro hm
      have hm2 := pyStrip_subset hm
      have hm3 := List.mem_filter.mp hm2
      have hm4 := List.mem_takeWhile_imp hm3.1
      simp at hm4
    · intro hm
      have hm2 := pyStrip_subset hm
      have hm3 := List.mem_filter.mp hm2
      simp at hm3
    · intro _
      refine ⟨?_, trimLeft_pyStrip _, trimRight_pyStrip _⟩
      intro hm
      have hm2 := pyStrip_subset hm
      have hm3 := List.mem_takeWhile_imp hm2
      simp at hm3
    · intro _ hcon
      have hm2 := pyStrip_subset hcon.1
      have hm3 := List.mem_takeWhile_imp hm2
      simp at hm3
  · exact ⟨⟨by simp, by simp, rfl, rfl⟩, fun hne => absurd rfl hne, fun _ => h⟩

/-- Re-parsing the exported `"name (country)"` string recovers the
stored fields. -/
lemma parseServer_export (name country : Str) (hwf : wfServer name country)
    (hc : country ≠ []) :
    parseServer (name ++ S " (" ++ country ++ S ")") = (name, country) := by
  obtain ⟨⟨hcL, hcR, hcTL, hcTR⟩, hn, _⟩ := hwf
  obtain ⟨hnp, hnTL, hnTR⟩ := hn hc
  have hshape : name ++ S " (" ++ country ++ S ")" =
      (name ++ [' ']) ++ '(' :: (country ++ [')']) := by
    rw [show S " (" = ' ' :: ['('] from rfl, show S ")" = [')'] from rfl]
    simp [List.append_assoc]
  have hcond : '(' ∈ name ++ S " (" ++ country ++ S ")" ∧
      ')' ∈ name ++ S " (" ++ country ++ S ")" := by
    rw [hshape]
    constructor
    · exact List.mem_append_right _ (List.mem_cons_self _ _)
    · refine List.mem_append_right _ (List.mem_cons_of_mem _ ?_)
      exact List.mem_append_right _ (List.mem_cons_self _ _)
  have hnotmem : '(' ∉ name ++ [' '] := by
    intro hm
    rcases List.mem_append.mp hm with hm1 | hm1
    · exact hnp hm1
    · simp at hm1
  have hnotmem2 : '(' ∉ country ++ [')'] := by
    intro hm
    rcases List.mem_append.mp hm with hm1 | hm1
    · exact hcL hm1
    · simp at hm1
  have hsplit : splitOnChar '(' (name ++ S " (" ++ country ++ S ")") =
      (name ++ [' ']) :: [country ++ [')']] := by
    rw [hshape, splitOnChar_append '(' _ hnotmem,
      splitOnChar_not_mem '(' hnotmem2]
  unfold parseServer
  rw [if_pos hcond]
  dsimp only
  rw [hsplit]
  simp only [List.headI, List.tail_cons]
  rw [pyStrip_append_space hnTL hnTR]
  have hfilter : (country ++ [')']).filter (fun c => c ≠ ')') = country := by
    rw [List.filter_append]
    have hf1 : country.filter (fun c => c ≠ ')') = country :=
      List.filter_eq_self.mpr
        (fun a ha => decide_eq_true (fun he => hcR (he ▸ ha)))
    have hf2 : ([')'] : Str).filter (fun c => c ≠ ')') = [] := rfl
    rw [hf1, hf2, List.append_nil]
  rw [hfilter]
  have hsc : pyStrip country = country := by
    unfold pyStrip
    rw [hcTL, hcTR]
  rw [hsc]

/-- One CSV row as re-read by the migration loop rebuilds the stored row
(client IP defaults to `"Unknown"`, embedding absent). -/
lemma test_insert_row_roundtrip (r : TestRow)
    (hwf : wfServer r.server_name r.server_country) (now : Str) :
    test_insert_row
      [(S "timestamp", dictGet (csvOfRow r) (S "Waktu") (.str [])),
       (S "ping", dictGet (csvOfRow r) (S "Ping (ms)") (.num 0)),
       (S "jitter", dictGet (csvOfRow r) (S "Jitter (ms)") (.num 0)),
       (S "download", dictGet (csvOfRow r) (S "Download (Mbps)") (.num 0)),
       (S "upload", dictGet (csvOfRow r) (S "Upload (Mbps)") (.num 0)),
       (S "server", dictGet (csvOfRow r) (S "Server") (.str (S "Unknown"))),
       (S "isp", dictGet (csvOfRow r) (S "ISP") (.str (S "Unknown")))]
      none now =
      .ok (TestRow.mk r.timestamp r.ping_ms r.jitter_ms r.download_mbps
        r.upload_mbps r.server_name r.server_country r.isp
        (.str (S "Unknown")) none) := by
  rcases eq_or_ne r.server_country [] with hc | hc
  · have hcsv : csvOfRow r =
        [(S "Waktu", r.timestamp), (S "Ping (ms)", .num r.ping_ms),
         (S "Jitter (ms)", .num r.jitter_ms),
         (S "Download (Mbps)", .num r.download_mbps),
         (S "Upload (Mbps)", .num r.upload_mbps),
         (S "Server", .str r.server_name), (S "ISP", r.isp)] := by
      unfold csvOfRow
      rw [if_neg (fun hcc => hcc hc)]
    rw [hcsv]
    refine Eq.trans
      (show _ = Except.ok (TestRow.mk r.timestamp r.ping_ms r.jitter_ms
        r.download_mbps r.upload_mbps (parseServer r.server_name).1
        (parseServer r.server_name).2 r.isp (.str (S "Unknown")) none)
        from rfl) ?_
    rw [parseServer_bare r.server_name (hwf.2.2 hc)]
    simp [hc]
  · have hcsv : csvOfRow r =
        [(S "Waktu", r.timestamp), (S "Ping (ms)", .num r.ping_ms),
         (S "Jitter (ms)", .num r.jitter_ms),
         (S "Download (Mbps)", .num r.download_mbps),
         (S "Upload (Mbps)", .num r.upload_mbps),
         (S "Server", .str (r.server_name ++ S " (" ++ r.server_country ++
           S ")")), (S "ISP", r.isp)] := by
      unfold csvOfRow
      rw [if_pos hc]
    rw [hcsv]
    refine Eq.trans
      (show _ = Except.ok (TestRow.mk r.timestamp r.ping_ms r.jitter_ms
        r.download_mbps r.upload_mbps
        (parseServer (r.server_name ++ S " (" ++ r.server_country ++ S ")")).1
        (parseServer (r.server_name ++ S " (" ++ r.server_country ++ S ")")).2
        r.isp (.str (S "Unknown")) none)
        from rfl) ?_
    rw [parseServer_export r.server_name r.server_country hwf hc]

/-- The migration loop over exported rows, against a working backend:
every row imports, in order, with client IP defaulted and no
embedding. -/
lemma migrate_rows_ok (now : Str) (cOk conn : Bool) (chats : List ChatRow)
    (rpcT : Option (List ℚ → Nat → List TestRow))
    (rpcC : Option (List ℚ → ℚ → Nat → List ChatRow)) :
    ∀ (l : List TestRow) (succ tot : Nat) (acc : List TestRow),
      (∀ r ∈ l, wfServer r.server_name r.server_country) →
      (l.map csvOfRow).foldl (migrateRow none now)
          ((succ, tot), Backend.mk true cOk conn acc chats rpcT rpcC) =
        ((succ + l.length, tot + l.length),
          Backend.mk true cOk conn
            (acc ++ l.map (fun r => TestRow.mk r.timestamp r.ping_ms
              r.jitter_ms r.download_mbps r.upload_mbps r.server_name
              r.server_country r.isp (.str (S "Unknown")) none))
            chats rpcT rpcC) := by
  intro l
  induction l with
  | nil => intro succ tot acc _; simp
  | cons r rs ih =>
    intro succ tot acc hwf
    have hstep : migrateRow none now
        ((succ, tot), Backend.mk true cOk conn acc chats rpcT rpcC)
        (csvOfRow r) =
        ((succ + 1, tot + 1), Backend.mk true cOk conn
          (acc ++ [TestRow.mk r.timestamp r.ping_ms r.jitter_ms
            r.download_mbps r.upload_mbps r.server_name r.server_country
            r.isp (.str (S "Unknown")) none]) chats rpcT rpcC) := by
      unfold migrateRow save_test_result
      dsimp only
      rw [test_insert_row_roundtrip r (hwf r (List.mem_cons_self r rs)) now]
      rfl
    rw [List.map_cons, List.foldl_cons, hstep,
      ih (succ + 1) (tot + 1) _ (fun x hx => hwf x (List.mem_cons_of_mem r hx))]
    refine congrArg₂ Prod.mk
      (congrArg₂ Prod.mk (by simp [List.length_cons]; omega)
        (by simp [List.length_cons]; omega)) ?_
    simp [List.append_assoc]

/-- **C4.** Exporting the stored records with `sync_to_csv` and
re-importing the file with `migrate_csv_to_supabase` into a fresh
working backend reproduces every record's numeric fields and server
name/country (every row imports: counts are `(n, n)`).  The server cell
written on export is `"server_name (server_country)"` when the country
is non-empty and the bare `server_name` otherwise, and the re-import
splits it back because every stored pair has the `wfServer` shape —
which the first conjunct shows `save_test_result`'s parsing always
produces. -/
theorem c4_csv_roundtrip :
    (∀ s : Str, wfServer (parseServer s).1 (parseServer s).2) ∧
    (∀ r : TestRow, dictGet (csvOfRow r) (S "Server") (.str (S "Unknown")) =
      .str (if r.server_country ≠ [] then
        r.server_name ++ S " (" ++ r.server_country ++ S ")"
      else r.server_name)) ∧
    (∀ (b : Backend) (now : Str), b.tableOk = true →
      (∀ r ∈ b.tests, wfServer r.server_name r.server_country) →
      (migrate_csv_to_supabase freshBackend (sync_to_csv b).2 none now).1 =
        (b.tests.length, b.tests.length) ∧
      ((migrate_csv_to_supabase freshBackend
          (sync_to_csv b).2 none now).2).tests.map
          (fun r => (r.ping_ms, r.jitter_ms, r.download_mbps, r.upload_mbps,
            r.server_name, r.server_country)) =
        b.tests.map
          (fun r => (r.ping_ms, r.jitter_ms, r.download_mbps, r.upload_mbps,
            r.server_name, r.server_country))) := by
  refine ⟨parseServer_wf, fun r => rfl, ?_⟩
  intro b now hT hwf
  unfold sync_to_csv
  rw [if_pos hT]
  by_cases hnil : b.tests = []
  · rw [if_pos hnil]
    simp [migrate_csv_to_supabase, hnil, freshBackend]
  · rw [if_neg hnil]
    unfold migrate_csv_to_supabase
    dsimp only
    rw [show freshBackend = Backend.mk true true true [] [] none none
      from rfl]
    rw [migrate_rows_ok now true true [] none none b.tests 0 0 [] hwf]
    constructor
    · simp
    · dsimp only
      rw [List.nil_append, List.map_map]
      rfl

/-- **C4 witness.** The round-trip theorem applied to a concrete
backend holding one record with server `"Jakarta"` / country `"ID"`. -/
theorem c4_csv_roundtrip_witness :
    ((migrate_csv_to_supabase freshBackend
        (sync_to_csv (Backend.mk true true false
          [TestRow.mk (.str (S "t1")) 10 1 50 20 (S "Jakarta") (S "ID")
            (.str (S "X")) (.str (S "ip")) none] [] none none)).2
        none (S "now")).2).tests.map
        (fun r => (r.ping_ms, r.jitter_ms, r.download_mbps, r.upload_mbps,
          r.server_name, r.server_country)) =
      [TestRow.mk (.str (S "t1")) 10 1 50 20 (S "Jakarta") (S "ID")
        (.str (S "X")) (.str (S "ip")) none].map
        (fun r => (r.ping_ms, r.jitter_ms, r.download_mbps, r.upload_mbps,
          r.server_name, r.server_country)) :=
  (c4_csv_roundtrip.2.2 _ (S "now") rfl (by decide)).2
